import Mathlib

namespace AutoEDA

/-! Shallow embedding of the Auto_EDA_with_RAG preprocessing and
visualization rule engine (directory src/eda_core of the repository).
Floating point values are modelled as exact rationals, pandas Series as
lists of optional cells (`none` is NaN), and DataFrames as ordered lists
of named, dtyped columns. -/

/-- Cell values of a dataframe: rationals model numeric floats exactly,
strings model categorical values, and `sc a v` is the exact symbolic form
a / sqrt v of a standard-scaled value (sklearn StandardScaler divides the
centred value by the square root of the biased variance, which is
irrational in general; the pair keeps it exact). -/
inductive CVal where
  | num (q : ℚ)
  | str (s : String)
  | sc (numer : ℚ) (variance : ℚ)
  deriving DecidableEq, Repr

/-- A dataframe cell; `none` models pandas NaN / missing. -/
abbrev Cell := Option CVal

/-- Numeric content of a cell (NaN and non-numeric cells give `none`). -/
def cellQ : Cell → Option ℚ
  | some (CVal.num q) => some q
  | _ => none

/-- Non-missing numeric values of a column, in order (pandas `dropna` on a
numeric column). -/
def qVals (cells : List Cell) : List ℚ := cells.filterMap cellQ

/-- Total comparison on cell values mirroring the ascending sort pandas
`mode` applies before returning its first element. -/
def CVal.le : CVal → CVal → Bool
  | CVal.num a, CVal.num b => decide (a ≤ b)
  | CVal.num _, _ => true
  | CVal.str _, CVal.num _ => false
  | CVal.str a, CVal.str b => decide (a ≤ b)
  | CVal.str _, CVal.sc _ _ => true
  | CVal.sc _ _, CVal.sc _ _ => true
  | CVal.sc _ _, _ => false

/-- Insert into a list sorted by `le`. -/
def insertBy (le : α → α → Bool) (x : α) : List α → List α
  | [] => [x]
  | y :: ys => if le x y then x :: y :: ys else y :: insertBy le x ys

/-- Insertion sort by a boolean comparison. -/
def sortBy (le : α → α → Bool) : List α → List α
  | [] => []
  | x :: xs => insertBy le x (sortBy le xs)

/-- Ascending sort of rationals. -/
def sortQ (xs : List ℚ) : List ℚ := sortBy (fun a b => decide (a ≤ b)) xs

/-- Sum of a list of rationals. -/
def sumQ (xs : List ℚ) : ℚ := xs.foldl (· + ·) 0

/-- Mean with pandas semantics: the mean of an empty series is NaN,
modelled as `none`. -/
def meanQ (xs : List ℚ) : Option ℚ :=
  if xs.length = 0 then none else some (sumQ xs / xs.length)

/-- Median with pandas semantics (average of the two middle elements for
even length, NaN / `none` when empty). -/
def medianQ (xs : List ℚ) : Option ℚ :=
  let s := sortQ xs
  let n := s.length
  if n = 0 then none
  else if n % 2 = 1 then some (s.getD (n / 2) 0)
  else some ((s.getD (n / 2 - 1) 0 + s.getD (n / 2) 0) / 2)

/-- Linear-interpolation quantile exactly as pandas `Series.quantile`
computes it on the sorted non-missing values: position q·(n−1), then
interpolate between the two neighbouring order statistics. Only used on
non-empty data. -/
def quantileQ (xs : List ℚ) (q : ℚ) : ℚ :=
  let s := sortQ xs
  let n := s.length
  let pos : ℚ := q * ((n : ℚ) - 1)
  let i : ℕ := pos.floor.toNat
  let frac : ℚ := pos - (i : ℚ)
  let lo := s.getD i 0
  let hi := s.getD (i + 1) lo
  lo + frac * (hi - lo)

/-- Biased central moment of order k (Σ(x−mean)^k / n), as used by both
pandas `nanskew` and scipy `skew` internally. -/
def centralMoment (xs : List ℚ) (k : ℕ) : ℚ :=
  match meanQ xs with
  | none => 0
  | some m => sumQ (xs.map (fun x => (x - m) ^ k)) / (xs.length : ℚ)

/-- Decides `Series.skew() > 1` for pandas' adjusted Fisher-Pearson
skewness G1 = (m3/m2^1.5)·√(n(n−1))/(n−2) without leaving ℚ:
pandas returns NaN for n < 3 (comparison false) and 0 when m2 = 0;
otherwise, since the correction factor is positive, G1 > 1 iff m3 > 0 and
n(n−1)·m3² > (n−2)²·m2³. -/
def pandasSkewGT1 (xs : List ℚ) : Bool :=
  let n := xs.length
  let m2 := centralMoment xs 2
  let m3 := centralMoment xs 3
  decide (3 ≤ n ∧ 0 < m2 ∧ 0 < m3 ∧
    (n : ℚ) * ((n : ℚ) - 1) * m3 ^ 2 > ((n : ℚ) - 2) ^ 2 * m2 ^ 3)

/-- Decides `abs(Series.skew()) > 1` for pandas skewness, by the same
squaring argument applied to |m3|. -/
def pandasAbsSkewGT1 (xs : List ℚ) : Bool :=
  let n := xs.length
  let m2 := centralMoment xs 2
  let m3 := centralMoment xs 3
  decide (3 ≤ n ∧ 0 < m2 ∧
    (n : ℚ) * ((n : ℚ) - 1) * m3 ^ 2 > ((n : ℚ) - 2) ^ 2 * m2 ^ 3)

/-- Decides `abs(scipy.stats.skew(xs)) > 1` for the biased skewness
g1 = m3/m2^1.5 without leaving ℚ: for m2 > 0, |g1| > 1 iff m3² > m2³;
scipy yields NaN when m2 = 0 (comparison false). -/
def scipyAbsSkewGT1 (xs : List ℚ) : Bool :=
  let m2 := centralMoment xs 2
  let m3 := centralMoment xs 3
  decide (0 < m2 ∧ m3 ^ 2 > m2 ^ 3)

/-- Maximum of a list of rationals (0 on empty; only used non-empty). -/
def maxQ : List ℚ → ℚ
  | [] => 0
  | x :: xs => xs.foldl max x

/-- Minimum of a list of rationals (0 on empty; only used non-empty). -/
def minQ : List ℚ → ℚ
  | [] => 0
  | x :: xs => xs.foldl min x

/-- Column type enumeration. Modelled from the spec: the `ColType` enum
(NUMERIC, CATEGORICAL, DATETIME, BOOLEAN, UNKNOWN) that the rule modules
pull in from src.utils.models is not part of the models.py shipped under
src/; the spec's data model section lists exactly these five variants. -/
inductive ColType where
  | NUMERIC
  | CATEGORICAL
  | DATETIME
  | BOOLEAN
  | UNKNOWN
  deriving DecidableEq, Repr

/-- Per-column profiling record. Modelled from the spec: the rule modules
read fields `type`, `missing_pct` (0-100) and `unique` of the ColumnSchema
they import from src.utils.models; the models.py under src/ does not carry
those fields, and the spec's data model section defines them. -/
structure ColumnSchema where
  type : ColType
  missing_pct : ℚ
  unique : Option ℕ
  deriving DecidableEq, Repr

/-- The per-column statistics mapping, in dict insertion order. -/
abbrev Stats := List (String × ColumnSchema)

/-- Pandas dtype of a column, as far as the rules inspect it
(`is_integer_dtype` / `is_numeric_dtype`). -/
inductive DType where
  | int
  | float
  | obj
  deriving DecidableEq, Repr

/-- Whether `pd.api.types.is_numeric_dtype` holds. -/
def DType.isNumeric : DType → Bool
  | DType.int => true
  | DType.float => true
  | DType.obj => false

/-- A named dataframe column. -/
structure DCol where
  name : String
  dtype : DType
  cells : List Cell
  deriving DecidableEq, Repr

/-- A dataframe in column-major form: columns in order, each holding one
cell per row. -/
abbrev DfC := List DCol

/-- First column carrying the given name (pandas label lookup). -/
def getCol : DfC → String → Option DCol
  | [], _ => none
  | col :: rest, c => if col.name == c then some col else getCol rest c

/-- Cells of the column named `c`, when present. -/
def getCells (df : DfC) (c : String) : Option (List Cell) :=
  (getCol df c).map (fun col => col.cells)

/-- Membership test `col in df.columns`. -/
def hasCol (df : DfC) (c : String) : Bool := (getCol df c).isSome

/-- Column labels in order. -/
def colNames (df : DfC) : List String := df.map (fun col => col.name)

/-- Assignment `df[c] = cells` (with the resulting dtype), touching every
column carrying the label. -/
def setCells : DfC → String → DType → List Cell → DfC
  | [], _, _, _ => []
  | col :: rest, c, dt, cs =>
    (if col.name == c then { col with dtype := dt, cells := cs } else col) ::
      setCells rest c dt cs

/-- Column removal `df.drop(columns=[c])`, removing every column carrying
the label. -/
def dropCol : DfC → String → DfC
  | [], _ => []
  | col :: rest, c => if col.name == c then dropCol rest c else col :: dropCol rest c

/-- Row count of the dataframe (length of any column; `len(df)`). -/
def nRows (df : DfC) : ℕ :=
  match df with
  | [] => 0
  | col :: _ => col.cells.length

/-- Shared shape of all four rule modules: iterate the column statistics
dict in order and collect the per-column decision strings the module
emits (Python builds the same dict by insertion). -/
def rulesFromStats (f : String → ColumnSchema → Option String) (stats : Stats) :
    List (String × String) :=
  stats.filterMap (fun p => (f p.1 p.2).map (fun d => (p.1, d)))

/-- IQR bounds [Q1 − 1.5·IQR, Q3 + 1.5·IQR] of a data sample, as
outliers.py computes them (lines 52-57). -/
def iqrBounds (xs : List ℚ) : ℚ × ℚ :=
  let q1 := quantileQ xs (1 / 4)
  let q3 := quantileQ xs (3 / 4)
  let iqr := q3 - q1
  (q1 - 3 / 2 * iqr, q3 + 3 / 2 * iqr)

/-- `((col_data < lower) | (col_data > upper)).sum()` of outliers.py
line 58. -/
def outlierCount (xs : List ℚ) : ℕ :=
  ((xs.filter (fun x => decide (x < (iqrBounds xs).1) || decide ((iqrBounds xs).2 < x)))).length

/-- Per-column decision of `outlier_rules` (outliers.py lines 46-70):
empty after NA-removal gives no-action, else zero outliers give
no-action, an outlier share strictly above 0.2 gives cap-at-percentiles,
and otherwise remove-outliers. -/
def outlierDecision (xs : List ℚ) : String :=
  if xs.length = 0 then "no-action"
  else if outlierCount xs = 0 then "no-action"
  else if (outlierCount xs : ℚ) / (xs.length : ℚ) > 1 / 5 then "cap-at-percentiles"
  else "remove-outliers"

/-- `outlier_rules`: numeric columns present in the dataframe are mapped
to their decision; other columns are skipped. -/
def outlierRules (df : DfC) (stats : Stats) : List (String × String) :=
  rulesFromStats
    (fun c st =>
      if st.type = ColType.NUMERIC then
        if hasCol df c then some (outlierDecision (qVals ((getCells df c).getD []))) else none
      else none)
    stats

/-- The outlier decision exactly as the specification words it: Q1, Q3,
IQR = Q3−Q1 on the non-missing values, bounds [Q1−1.5·IQR, Q3+1.5·IQR],
outlier count = number of values outside the bounds; decision no-action on
zero count, cap-at-percentiles when count/len is strictly above 0.20, and
remove-outliers otherwise. -/
def specOutlierDecision (xs : List ℚ) : String :=
  let q1 := quantileQ xs (1 / 4)
  let q3 := quantileQ xs (3 / 4)
  let iqr := q3 - q1
  let lower := q1 - 3 / 2 * iqr
  let upper := q3 + 3 / 2 * iqr
  let oc := xs.countP (fun x => decide (x < lower) || decide (upper < x))
  if oc = 0 then "no-action"
  else if (oc : ℚ) / (xs.length : ℚ) > 20 / 100 then "cap-at-percentiles"
  else "remove-outliers"

/-- Pandas `Series.mode()[0]`: the smallest among the most frequent
non-missing values, `none` when there are none (where pandas raises
IndexError). -/
def modeCell (cells : List Cell) : Option CVal :=
  let vs := cells.filterMap id
  let cands := vs.dedup
  let maxCt := (cands.map (fun v => vs.count v)).foldl max 0
  (cands.filter (fun v => vs.count v == maxCt)).foldl
    (fun acc v =>
      match acc with
      | none => some v
      | some w => if CVal.le v w then some v else some w)
    none

/-- `fillna(v)`: replace missing cells by `v`. -/
def fillCells (cells : List Cell) (v : CVal) : List Cell :=
  cells.map (fun cell =>
    match cell with
    | none => some v
    | some x => some x)

/-- Shared shape of the four imputation branches of
`handle_missing_values`: look the column up (KeyError when absent),
compute the fill value from its cells, and assign the filled column back.
When the fill value does not exist, pandas raises IndexError for the
`mode()[0]` branches (`emptyErr = true`) while `fillna(NaN)` is a no-op
for the mean/median branches (`emptyErr = false`). -/
def imputeCol (df : DfC) (c : String) (fv : List Cell → Option CVal) (emptyErr : Bool) :
    Except String DfC :=
  match getCol df c with
  | none => Except.error "KeyError"
  | some col =>
    match fv col.cells with
    | none => if emptyErr then Except.error "IndexError" else Except.ok df
    | some v => Except.ok (setCells df c col.dtype (fillCells col.cells v))

/-- Per-column decision of `missing_value_rules` (missing_values.py lines
43-68): zero missing gives no-action, above 50 drops the column, and
otherwise the type dispatches, numeric columns choosing median over mean
when the pandas skewness of the non-missing values exceeds 1. -/
def missingDecision (df : DfC) (c : String) (st : ColumnSchema) : String :=
  if st.missing_pct = 0 then "no-action"
  else if st.missing_pct > 50 then "drop-column"
  else
    match st.type with
    | ColType.NUMERIC =>
        if pandasSkewGT1 (qVals ((getCells df c).getD [])) then "impute-median"
        else "impute-mean"
    | ColType.CATEGORICAL => "impute-mode"
    | ColType.DATETIME => "impute-most-frequent-date"
    | ColType.BOOLEAN => "impute-mode"
    | ColType.UNKNOWN => "no-action"

/-- `missing_value_rules`: every stats column present in the dataframe is
mapped to its decision; absent columns are skipped with a warning. -/
def missingValueRules (df : DfC) (stats : Stats) : List (String × String) :=
  rulesFromStats
    (fun c st => if hasCol df c then some (missingDecision df c st) else none)
    stats

/-- One action of the `handle_missing_values` loop (missing_values.py
lines 96-116). -/
def applyMissingStep (df : DfC) (c : String) (a : String) : Except String DfC :=
  if a == "no-action" then Except.ok df
  else if a == "drop-column" then Except.ok (dropCol df c)
  else if a == "impute-mean" then
    imputeCol df c (fun cs => (meanQ (qVals cs)).map CVal.num) false
  else if a == "impute-median" then
    imputeCol df c (fun cs => (medianQ (qVals cs)).map CVal.num) false
  else if a == "impute-mode" then imputeCol df c modeCell true
  else if a == "impute-most-frequent-date" then imputeCol df c modeCell true
  else Except.ok df

/-- Sequential application of the per-column actions, aborting on the
first error (any exception becomes a PreprocessingError). -/
def applyMissingList (df : DfC) : List (String × String) → Except String DfC
  | [] => Except.ok df
  | (c, a) :: rest =>
    match applyMissingStep df c a with
    | Except.error e => Except.error e
    | Except.ok df2 => applyMissingList df2 rest

/-- `handle_missing_values`: derive the strategies from the incoming
dataframe, then apply them in order. -/
def handleMissingValues (df : DfC) (stats : Stats) : Except String DfC :=
  applyMissingList df (missingValueRules df stats)

/-- Prefix test on character lists. -/
def isPrefixL : List Char → List Char → Bool
  | [], _ => true
  | _ :: _, [] => false
  | p :: ps, c :: cs => p == c && isPrefixL ps cs

/-- Substring containment on character lists (an empty pattern is always
contained, as for Python's `in`). -/
def containsL (pat : List Char) : List Char → Bool
  | [] => pat.isEmpty
  | c :: cs => isPrefixL pat (c :: cs) || containsL pat cs

/-- Python's `pat in s` substring test. -/
def containsSub (s pat : String) : Bool := containsL pat.toList s.toList

/-- A numeric pandas Series as the semantic classifiers see it: the
non-missing values and the column dtype. -/
structure NSeries where
  vals : List ℚ
  dtype : DType
  deriving DecidableEq, Repr

/-- `Series.nunique()`: distinct non-missing values. -/
def nuniqueQ (xs : List ℚ) : ℕ := xs.dedup.length

/-- `is_id_like` (transformations.py lines 23-29): integer dtype, distinct
ratio above 0.98 and more than 50 distinct values. (On an empty series
Python would divide by zero; rational division yields 0 and the predicate
is false; the rule engine never consults it on empty data.) -/
def is_id_like (s : NSeries) : Bool :=
  s.dtype == DType.int &&
    decide ((nuniqueQ s.vals : ℚ) / (s.vals.length : ℚ) > 98 / 100) &&
    decide (nuniqueQ s.vals > 50)

/-- `is_count_like` (lines 31-33): integer dtype with fewer than 20
distinct values. -/
def is_count_like (s : NSeries) : Bool :=
  s.dtype == DType.int && decide (nuniqueQ s.vals < 20)

/-- Age keywords of `is_age_like`. -/
def ageKeywords : List String := ["age", "yrs", "years", "yr", "age_in_years"]

/-- `is_age_like` (lines 35-50): an age keyword in the lowered name, or a
numeric dtype with strictly more than 80 percent of the non-missing
values in [0, 120] (the mean of an empty boolean series is NaN and the
comparison is false; rational division by zero gives the same verdict). -/
def is_age_like (name : String) (s : NSeries) : Bool :=
  if ageKeywords.any (fun kw => containsSub name.toLower kw) then true
  else if s.dtype.isNumeric then
    decide (((s.vals.filter (fun x => decide (0 ≤ x) && decide (x ≤ 120))).length : ℚ) /
      (s.vals.length : ℚ) > 8 / 10)
  else false

/-- `is_percentage_like` (lines 53-55): every value in [0,1] or every
value in [0,100]. -/
def is_percentage_like (s : NSeries) : Bool :=
  s.vals.all (fun x => decide (0 ≤ x) && decide (x ≤ 1)) ||
    s.vals.all (fun x => decide (0 ≤ x) && decide (x ≤ 100))

/-- Monetary keywords of `is_money_like`. -/
def moneyKeywords : List String := ["price", "cost", "revenue", "income", "amount", "salary"]

/-- `is_money_like` (lines 57-59): a monetary keyword in the lowered
name. -/
def is_money_like (name : String) : Bool :=
  moneyKeywords.any (fun kw => containsSub name.toLower kw)

/-- `col_data.max() - col_data.min()`. -/
def rangeQ (xs : List ℚ) : ℚ := maxQ xs - minQ xs

/-- Numeric branch of `transformation_rules` (lines 87-124): the five
semantic classifiers in priority order, then the generic skew/range
rule. -/
def numericDecision (name : String) (s : NSeries) : String :=
  if is_id_like s then "drop (identifier-like)"
  else if is_count_like s then "no-transform (count-like)"
  else if is_age_like name s then "no-transform (age-like)"
  else if is_percentage_like s then "no-transform (percentage/ratio)"
  else if is_money_like name then
    if scipyAbsSkewGT1 s.vals && s.vals.all (fun x => decide (0 < x)) then "log-transform"
    else "standard-scaling"
  else if scipyAbsSkewGT1 s.vals && s.vals.all (fun x => decide (0 < x)) then "log-transform"
  else if rangeQ s.vals > 1000 then "standard-scaling"
  else "min-max-scaling"

/-- Per-column decision of `transformation_rules` (lines 70-146): empty
and constant columns are dropped, then the column type dispatches. -/
def transformDecision (c : String) (col : DCol) (st : ColumnSchema) : String :=
  let nonNull := col.cells.filterMap id
  if nonNull.length = 0 then "drop (empty column)"
  else if nonNull.dedup.length = 1 then "drop (constant feature)"
  else
    match st.type with
    | ColType.NUMERIC => numericDecision c { vals := qVals col.cells, dtype := col.dtype }
    | ColType.CATEGORICAL =>
      let card :=
        match st.unique with
        | some n => if n = 0 then nonNull.dedup.length else n
        | none => nonNull.dedup.length
      if card ≤ 10 then "one-hot-encode"
      else if card ≤ 50 then "target/frequency-encode"
      else "embedding-encode"
    | ColType.DATETIME => "extract date parts (year, month, day, weekday, hour)"
    | ColType.BOOLEAN => "convert to int (0/1)"
    | ColType.UNKNOWN => "no-action"

/-- `transformation_rules`: columns absent from the dataframe are
skipped. -/
def transformationRules (df : DfC) (stats : Stats) : List (String × String) :=
  rulesFromStats
    (fun c st =>
      match getCol df c with
      | none => none
      | some col => some (transformDecision c col st))
    stats

/-- The five semantic-classifier verdicts at a column name and value
series, in the specification's priority order (id, count, age,
percentage, money). -/
def semanticPredHolds (name : String) (s : NSeries) : List Bool :=
  [is_id_like s, is_count_like s, is_age_like name s, is_percentage_like s,
   is_money_like name]

/-- The mutual exclusivity claim C3 asserts of the raw predicates. -/
def atMostOneSemantic (name : String) (s : NSeries) : Prop :=
  (semanticPredHolds name s).count true ≤ 1

/-! ## Encoding rules (src/eda_core/preprocessing_rules/encodings.py) -/

/-- `encoding_rules` (encodings.py lines 40-56): categorical columns only;
cardinality `stats.unique or 0` at most 10 gives one-hot, at most 50
target encoding, above 50 embeddings. -/
def encodingRules (stats : Stats) : List (String × String) :=
  rulesFromStats
    (fun _ st =>
      if st.type = ColType.CATEGORICAL then
        some
          (if st.unique.getD 0 ≤ 10 then "one-hot-encode"
           else if st.unique.getD 0 ≤ 50 then "target-encode"
           else "embedding-encode")
      else none)
    stats

/-! ## Preprocessing rules engine
  (src/eda_core/preprocessing_rules/preprocess_engine.py) -/

/-- The consolidated decision map of `run_preprocessing_rules`. -/
structure RuleResults where
  transformations : List (String × String)
  missing_values : List (String × String)
  outliers : List (String × String)
  encodings : List (String × String)
  deriving DecidableEq, Repr

/-- `run_preprocessing_rules` (preprocess_engine.py lines 26-52): run all
four rule modules on the same snapshot. -/
def runPreprocessingRules (df : DfC) (stats : Stats) : RuleResults :=
  { transformations := transformationRules df stats
    missing_values := missingValueRules df stats
    outliers := outlierRules df stats
    encodings := encodingRules stats }

/-- A decision that the idempotence property of the specification
accepts: no-action, or any of the no-transform labels. -/
def isNoActionLike (dec : String) : Bool :=
  dec == "no-action" || containsSub dec "no-transform"

/-- String form of a category value as it enters a one-hot indicator
column name: sklearn's get_feature_names_out produces "col_category" with
the category's printed form; string categories keep their text. -/
def cvalName : CVal → String
  | CVal.str s => s
  | CVal.num q => toString q
  | CVal.sc a v => toString a ++ "/sqrt" ++ toString v

/-- One-hot encoding of a column (encodings.py lines 87-92): fit the
encoder on the distinct values (sklearn sorts the categories), build one
0/1 indicator column named "col_category" per category, drop the original
column and concatenate the indicators on the right. -/
def oneHotApply (df : DfC) (c : String) : Except String DfC :=
  match getCol df c with
  | none => Except.error "KeyError"
  | some col =>
    let cats := sortBy CVal.le (col.cells.filterMap id).dedup
    Except.ok
      (dropCol df c ++
        cats.map (fun v =>
          { name := c ++ "_" ++ cvalName v
            dtype := DType.float
            cells :=
              col.cells.map (fun cell =>
                some (CVal.num (if cell == some v then 1 else 0))) }))

/-- Modelled from the spec: the external TargetEncoder of
category_encoders "replaces the column's values with a per-category
smoothed target statistic"; the smoothing detail is outside the
repository, so the plain per-category mean of the numeric target values
stands in for it. Missing categories stay missing. -/
def targetEncodeCol (xs ys : List Cell) : List Cell :=
  xs.map (fun x =>
    match x with
    | none => none
    | some v =>
      match meanQ (qVals (((xs.zip ys).filter (fun p => p.1 == some v)).map Prod.snd)) with
      | none => none
      | some m => some (CVal.num m))

/-- One strategy application of the `encode_and_scale` loop (encodings.py
lines 84-104): one-hot encodes, target encoding demands a target column
that is present (PreprocessingError otherwise), embedding encoding is a
logged no-op. -/
def applyEncodingStep (df : DfC) (target : Option String) (c strat : String) :
    Except String DfC :=
  if strat == "one-hot-encode" then oneHotApply df c
  else if strat == "target-encode" then
    match target with
    | none => Except.error "PreprocessingError: target column required"
    | some t =>
      if hasCol df t then
        match getCol df c, getCol df t with
        | some col, some tcol =>
          Except.ok (setCells df c DType.float (targetEncodeCol col.cells tcol.cells))
        | _, _ => Except.error "KeyError"
      else Except.error "PreprocessingError: target column required"
  else Except.ok df

/-- The `encode_and_scale` strategy loop, aborting at the first error. -/
def applyEncodings (df : DfC) (target : Option String) :
    List (String × String) → Except String DfC
  | [] => Except.ok df
  | (c, s) :: rest =>
    match applyEncodingStep df target c s with
    | Except.error e => Except.error e
    | Except.ok df2 => applyEncodings df2 target rest

/-- Fitted StandardScaler mean of a column: the mean over the non-missing
values (sklearn ignores NaN when fitting; the fallback 0 for an all-NaN
column is unobservable because every transformed cell is NaN then). -/
def fitMean (cells : List Cell) : ℚ := (meanQ (qVals cells)).getD 0

/-- Fitted StandardScaler variance of a column: the biased variance over
the non-missing values. -/
def fitVar (cells : List Cell) : ℚ := centralMoment (qVals cells) 2

/-- StandardScaler transform of one column (encodings.py lines 106-112):
subtract the fitted mean and divide by the square root of the fitted
variance (a zero variance gets scale 1, sklearn's
_handle_zeros_in_scale); NaN cells stay NaN; non-numeric cells make the
scaler raise a ValueError. -/
def scaleColE (cells : List Cell) : Except String (List Cell) :=
  if cells.any (fun cell =>
      match cell with
      | some (CVal.num _) => false
      | none => false
      | _ => true) then
    Except.error "ValueError: non-numeric data in scaled column"
  else
    Except.ok
      (cells.map (fun cell =>
        match cell with
        | some (CVal.num x) =>
          if fitVar cells = 0 then some (CVal.num (x - fitMean cells))
          else some (CVal.sc (x - fitMean cells) (fitVar cells))
        | other => other))

/-- Column-wise application of the scaler to the listed columns. -/
def scaleCols : DfC → List String → Except String DfC
  | df, [] => Except.ok df
  | df, c :: rest =>
    match getCol df c with
    | none => Except.error "KeyError"
    | some col =>
      match scaleColE col.cells with
      | Except.error e => Except.error e
      | Except.ok cs => scaleCols (setCells df c DType.float cs) rest

/-- `encode_and_scale` (encodings.py lines 65-119): apply the encoding
strategies in stats order, then standard-scale every column recorded as
NUMERIC that is still present in the dataframe. -/
def encodeAndScale (df : DfC) (stats : Stats) (target : Option String) :
    Except String DfC :=
  match applyEncodings df target (encodingRules stats) with
  | Except.error e => Except.error e
  | Except.ok df2 =>
    scaleCols df2
      (((stats.filter (fun p => p.2.type == ColType.NUMERIC)).map Prod.fst).filter
        (fun n => hasCol df2 n))

/-- Success test on an `encode_and_scale` outcome. -/
def isOkE : Except String DfC → Bool
  | Except.ok _ => true
  | Except.error _ => false

/-- A dataframe in row-major form, for the row-filtering outlier handler:
ordered column labels and one cell list per row. -/
structure DfR where
  names : List String
  rows : List (List Cell)
  deriving DecidableEq, Repr

/-- Position of a column label. -/
def DfR.colIdx (df : DfR) (c : String) : Option ℕ :=
  df.names.findIdx? (fun n => n == c)

/-- The cells of a column, one per row. -/
def DfR.colCells (df : DfR) (c : String) : List Cell :=
  match df.colIdx c with
  | none => []
  | some i => df.rows.map (fun r => r.getD i none)

/-- `col in df.columns` for the row form. -/
def DfR.hasCol (df : DfR) (c : String) : Bool := (df.colIdx c).isSome

/-- `outlier_rules` over the row form (same decision per column). -/
def outlierRulesR (df : DfR) (stats : Stats) : List (String × String) :=
  rulesFromStats
    (fun c st =>
      if st.type = ColType.NUMERIC then
        if df.hasCol c then some (outlierDecision (qVals (df.colCells c))) else none
      else none)
    stats

/-- Pandas `series >= b` at one cell: a NaN comparison is False. -/
def cellGE (cell : Cell) (b : ℚ) : Bool :=
  match cellQ cell with
  | some q => decide (b ≤ q)
  | none => false

/-- Pandas `series <= b` at one cell: a NaN comparison is False. -/
def cellLE (cell : Cell) (b : ℚ) : Bool :=
  match cellQ cell with
  | some q => decide (q ≤ b)
  | none => false

/-- `np.clip` at one cell: NaN stays NaN. -/
def clipCell (cell : Cell) (lo hi : ℚ) : Cell :=
  match cell with
  | some (CVal.num q) => some (CVal.num (min (max q lo) hi))
  | other => other

/-- One action of the `handle_outliers` loop (outliers.py lines 99-126):
remove-outliers keeps the rows satisfying
`(df[col] >= lower) & (df[col] <= upper)` with the IQR bounds of the
column's current non-missing values; cap-at-percentiles clips into the
5th-95th percentile range; anything else is skipped. -/
def applyOutlierStep (df : DfR) (c action : String) : DfR :=
  if action == "no-action" then df
  else if !df.hasCol c then df
  else
    if action == "remove-outliers" then
      match df.colIdx c with
      | none => df
      | some i =>
        { df with
          rows := df.rows.filter (fun r =>
            cellGE (r.getD i none) (iqrBounds (qVals (df.colCells c))).1 &&
              cellLE (r.getD i none) (iqrBounds (qVals (df.colCells c))).2) }
    else if action == "cap-at-percentiles" then
      match df.colIdx c with
      | none => df
      | some i =>
        { df with
          rows := df.rows.map (fun r =>
            r.set i (clipCell (r.getD i none) (quantileQ (qVals (df.colCells c)) (1 / 20))
              (quantileQ (qVals (df.colCells c)) (19 / 20)))) }
    else df

/-- `handle_outliers` (outliers.py lines 79-129): derive the strategies
from the incoming dataframe, then apply them in order on the mutating
frame. -/
def handleOutliers (df : DfR) (stats : Stats) : DfR :=
  (outlierRulesR df stats).foldl (fun d p => applyOutlierStep d p.1 p.2) df

/-- Visualization tiers. Modelled from the spec: the VisualizationLevel
enum the rules import from src.utils.models is not in the models.py under
src/; the spec's data model defines the tiers BASIC, DIAGNOSTIC and
ADVANCED. -/
inductive VisualizationLevel where
  | BASIC
  | DIAGNOSTIC
  | ADVANCED
  deriving DecidableEq, Repr

/-- One recommended chart with its tier. -/
structure ChartEntry where
  chart : String
  level : VisualizationLevel
  deriving DecidableEq, Repr

/-- The visualization plan, a Python dict keyed by feature in insertion
order. -/
abbrev VisDict := List (String × List ChartEntry)

/-- Python dict assignment `d[k] = v`: overwrite in place when the key
exists, append otherwise. -/
def dictSet (d : VisDict) (k : String) (v : List ChartEntry) : VisDict :=
  if d.any (fun p => p.1 == k) then d.map (fun p => if p.1 == k then (k, v) else p)
  else d ++ [(k, v)]

/-- A sequence of dict assignments. -/
def dictSets (d : VisDict) : List (String × List ChartEntry) → VisDict
  | [] => d
  | (k, v) :: rest => dictSets (dictSet d k v) rest

/-- Univariate chart list for one column (vis_rules.py lines 53-85): the
log-scale histogram joins only when the pandas skewness of the column's
non-missing values has absolute value above 1. (The source indexes
`df[col]` unconditionally and would raise on an absent column; the model
reads an absent column as empty, and the claims only quantify over frames
that carry the profiled columns.) -/
def univariateCharts (df : DfC) (c : String) (st : ColumnSchema) : List ChartEntry :=
  match st.type with
  | ColType.NUMERIC =>
    [⟨"histogram", VisualizationLevel.BASIC⟩,
     ⟨"histogram_kde", VisualizationLevel.DIAGNOSTIC⟩] ++
    (if pandasAbsSkewGT1 (qVals ((getCells df c).getD [])) then
      [⟨"histogram_log_scale", VisualizationLevel.ADVANCED⟩]
    else []) ++
    [⟨"boxplot", VisualizationLevel.BASIC⟩]
  | ColType.CATEGORICAL =>
    [⟨"barplot", VisualizationLevel.BASIC⟩,
     ⟨"pareto_chart", VisualizationLevel.DIAGNOSTIC⟩,
     ⟨"proportion_chart", VisualizationLevel.ADVANCED⟩]
  | ColType.DATETIME =>
    [⟨"lineplot", VisualizationLevel.BASIC⟩,
     ⟨"seasonal_decompose", VisualizationLevel.DIAGNOSTIC⟩,
     ⟨"rolling_avg_plot", VisualizationLevel.ADVANCED⟩]
  | ColType.BOOLEAN =>
    [⟨"barplot", VisualizationLevel.BASIC⟩,
     ⟨"class_balance_plot", VisualizationLevel.DIAGNOSTIC⟩]
  | ColType.UNKNOWN => []

/-- The univariate pass entries in stats order, skipping the target
column (`col == target_column` is False for every column when no target
is given). -/
def univariateEntries (df : DfC) (stats : Stats) (target : Option String) :
    List (String × List ChartEntry) :=
  stats.filterMap (fun p =>
    if some p.1 == target then none
    else some (p.1, univariateCharts df p.1 p.2))

/-- Bivariate chart matrix (vis_rules.py lines 98-119), conditioned on
the task type and the candidate column's type. -/
def bivariateCharts (task : Option String) (ty : ColType) : List ChartEntry :=
  if task == some "regression" then
    match ty with
    | ColType.NUMERIC =>
      [⟨"scatter", VisualizationLevel.BASIC⟩,
       ⟨"scatter_trendline", VisualizationLevel.ADVANCED⟩,
       ⟨"partial_dependence_plot", VisualizationLevel.ADVANCED⟩]
    | ColType.CATEGORICAL =>
      [⟨"boxplot", VisualizationLevel.BASIC⟩,
       ⟨"violin_plot", VisualizationLevel.DIAGNOSTIC⟩]
    | _ => []
  else if task == some "classification" then
    match ty with
    | ColType.NUMERIC =>
      [⟨"boxplot", VisualizationLevel.BASIC⟩,
       ⟨"violin_plot", VisualizationLevel.DIAGNOSTIC⟩]
    | ColType.CATEGORICAL =>
      [⟨"countplot", VisualizationLevel.BASIC⟩,
       ⟨"stacked_bar", VisualizationLevel.DIAGNOSTIC⟩]
    | _ => []
  else if task == some "time-series" then
    match ty with
    | ColType.NUMERIC =>
      [⟨"lineplot", VisualizationLevel.BASIC⟩,
       ⟨"lag_plot", VisualizationLevel.DIAGNOSTIC⟩,
       ⟨"acf_pacf", VisualizationLevel.ADVANCED⟩]
    | _ => []
  else []

/-- The bivariate pass entries: only when a (non-empty, truthy) target
name is given and profiled; each non-target column contributes the key
"col_vs_target". -/
def bivariateEntries (stats : Stats) (target : Option String) (task : Option String) :
    List (String × List ChartEntry) :=
  match target with
  | none => []
  | some t =>
    if t != "" && (stats.lookup t).isSome then
      stats.filterMap (fun p =>
        if p.1 == t then none
        else some (p.1 ++ "_vs_" ++ t, bivariateCharts task p.2.type))
    else []

/-- Numeric column names in stats order. -/
def numColsOf (stats : Stats) : List String :=
  (stats.filter (fun p => p.2.type == ColType.NUMERIC)).map Prod.fst

/-- Categorical column names in stats order. -/
def catColsOf (stats : Stats) : List String :=
  (stats.filter (fun p => p.2.type == ColType.CATEGORICAL)).map Prod.fst

/-- The categorical-vs-numeric cross entries: the nested `for cat_col`,
`for num_col` loops of vis_rules.py lines 131-133. -/
def crossNumEntries : List String → List String → List (String × List ChartEntry)
  | [], _ => []
  | c :: cs, ns =>
    ns.map (fun n => (c ++ "_vs_" ++ n, [⟨"barplot", VisualizationLevel.BASIC⟩])) ++
      crossNumEntries cs ns

/-- Unordered categorical pairs as `for i, cat1 in enumerate(cat_cols)`,
`for cat2 in cat_cols[i+1:]` enumerates them. -/
def catPairs : List String → List (String × String)
  | [] => []
  | c :: rest => rest.map (fun c2 => (c, c2)) ++ catPairs rest

/-- The categorical-vs-categorical cross entries (vis_rules.py lines
135-137). -/
def crossCatEntries (catCols : List String) : List (String × List ChartEntry) :=
  (catPairs catCols).map (fun p =>
    (p.1 ++ "_vs_" ++ p.2, [⟨"stacked_bar", VisualizationLevel.DIAGNOSTIC⟩]))

/-- The correlation-heatmap block (vis_rules.py lines 125-129): present
when more than one numeric column exists, with the pairplot added under
the row-count cost guard. -/
def reservedEntries (df : DfC) (stats : Stats) : List (String × List ChartEntry) :=
  if (numColsOf stats).length > 1 then
    [("numeric_correlation", [⟨"heatmap", VisualizationLevel.BASIC⟩]),
     ("clustered_correlation", [⟨"cluster_heatmap", VisualizationLevel.ADVANCED⟩])] ++
    (if nRows df < 1000 then
      [("pairplot", [⟨"pairplot", VisualizationLevel.ADVANCED⟩])]
    else [])
  else []

/-- The multivariate pass entries in source order: heatmap block, then
categorical-vs-numeric crosses, then categorical pairs. -/
def multivariateEntries (df : DfC) (stats : Stats) : List (String × List ChartEntry) :=
  reservedEntries df stats ++
    crossNumEntries (catColsOf stats) (numColsOf stats) ++
    crossCatEntries (catColsOf stats)

/-- `visualization_rules` (vis_rules.py lines 26-140): univariate, then
bivariate, then multivariate insertions into one dict. -/
def visualizationRules (df : DfC) (stats : Stats) (target task : Option String) :
    VisDict :=
  dictSets
    (dictSets (dictSets [] (univariateEntries df stats target))
      (bivariateEntries stats target task))
    (multivariateEntries df stats)

/-! ## Visualizer (src/eda_core/visualizer.py) -/

/-- Index of the first occurrence of a pattern in a character list. -/
def findSubIdx (pat : List Char) : List Char → Option ℕ
  | [] => if pat.isEmpty then some 0 else none
  | c :: cs =>
    if isPrefixL pat (c :: cs) then some 0 else (findSubIdx pat cs).map (· + 1)

/-- `col1, col2 = feature.split("_vs_")`: the two parts when the split
yields exactly two (one separator occurrence); `none` when the unpacking
would raise. -/
def splitVs (feature : String) : Option (String × String) :=
  let pat := "_vs_".toList
  let cs := feature.toList
  match findSubIdx pat cs with
  | none => none
  | some i =>
    let rest := cs.drop (i + pat.length)
    if containsL pat rest then none
    else some (⟨cs.take i⟩, ⟨rest⟩)

/-- Chart types with an implementation acting on the first column alone
(visualizer.py lines 105-131). -/
def implementedSingle : List String :=
  ["histogram", "histogram_kde", "histogram_log_scale", "boxplot", "barplot", "heatmap"]

/-- The image path `self.output_dir / f"[feature]_[chart].png"` under the
default output directory. -/
def chartPath (feature chart : String) : String :=
  "artifacts/visuals/" ++ feature ++ "_" ++ chart ++ ".png"

/-- Dispatch over the implemented chart types once the column guard has
passed: single-column charts save their figure, scatter needs the second
column (`df[None]` raises otherwise), feature_importance returns None for
an unknown feature and raises on a ColumnSchema (the code calls `.keys()`
on it), and unknown chart types return None. -/
def renderDispatch (stats : Stats) (feature chart : String) (pair : Bool) :
    Except Unit (Option String) :=
  if implementedSingle.contains chart then Except.ok (some (chartPath feature chart))
  else if chart == "scatter" then
    if pair then Except.ok (some (chartPath feature chart)) else Except.error ()
  else if chart == "feature_importance" then
    if (stats.lookup feature).isSome then Except.error () else Except.ok none
  else Except.ok none

/-- `Visualizer._render_chart` (visualizer.py lines 73-152): pair
features split on "_vs_" and are skipped when either column is absent; a
single feature is skipped when it is not a dataframe column; then the
chart dispatch runs. `Except.error` models an exception escaping to the
caller, `Except.ok none` the silent skip paths, `Except.ok (some path)` a
saved image file. -/
def renderChart (df : DfC) (stats : Stats) (feature chart : String) :
    Except Unit (Option String) :=
  if containsSub feature "_vs_" then
    match splitVs feature with
    | none => Except.error ()
    | some (c1, c2) =>
      if hasCol df c1 && hasCol df c2 then renderDispatch stats feature chart true
      else Except.ok none
  else
    if hasCol df feature then renderDispatch stats feature chart false
    else Except.ok none

/-- `Visualizer.generate_plots` (visualizer.py lines 36-67): for every
feature collect the successfully rendered paths, swallowing and logging
per-chart failures. -/
def generatePlots (df : DfC) (rules : VisDict) (stats : Stats) :
    List (String × List String) :=
  rules.map (fun p =>
    (p.1, p.2.filterMap (fun e =>
      match renderChart df stats p.1 e.chart with
      | Except.ok (some path) => some path
      | _ => none)))

/-! ## Theorems -/

/-- Looking up a column in a rule module's output: the decision attached
to the first stats entry for that column. -/
theorem rulesFromStats_lookup (f : String → ColumnSchema → Option String)
    (stats : Stats) (c : String) (st : ColumnSchema) (d : String)
    (hl : stats.lookup c = some st) (hf : f c st = some d) :
    (rulesFromStats f stats).lookup c = some d := by
  induction stats with
  | nil => simp [List.lookup] at hl
  | cons p rest ih =>
    obtain ⟨c0, st0⟩ := p
    by_cases hc : c = c0
    · subst hc
      simp [List.lookup] at hl
      subst hl
      simp [rulesFromStats, hf, List.lookup]
    · have hb : (c == c0) = false := by simpa using hc
      simp [List.lookup, hb] at hl
      have hrec := ih hl
      cases hfc : f c0 st0 with
      | none => simpa [rulesFromStats, hfc] using hrec
      | some d0 => simpa [rulesFromStats, hfc, List.lookup, hb] using hrec

/-! ## Outlier rules (src/eda_core/preprocessing_rules/outliers.py) -/

/-- On non-empty data the source decision coincides with the
specification's formulation. -/
theorem outlierDecision_eq_spec (xs : List ℚ) (h : xs ≠ []) :
    outlierDecision xs = specOutlierDecision xs := by
  have hlen : xs.length ≠ 0 := by simpa using h
  have hcount : outlierCount xs =
      xs.countP (fun x => decide (x < (iqrBounds xs).1) || decide ((iqrBounds xs).2 < x)) := by
    simp [outlierCount, List.countP_eq_length_filter]
  have h20 : (20 : ℚ) / 100 = 1 / 5 := by norm_num
  simp only [outlierDecision, specOutlierDecision, iqrBounds, hcount, h20] at *
  simp [hlen]

/-- Claim C1: for every numeric column whose non-missing values are
non-empty, the outlier decision computed by outlier_rules equals the
specification's IQR rule: no-action on zero outliers, cap-at-percentiles
when the outlier share strictly exceeds 0.20, remove-outliers
otherwise. -/
theorem claim_C1_outlier_decision (df : DfC) (stats : Stats) (c : String)
    (st : ColumnSchema) (cells : List Cell)
    (hl : stats.lookup c = some st) (ht : st.type = ColType.NUMERIC)
    (hc : getCells df c = some cells) (hne : qVals cells ≠ []) :
    (outlierRules df stats).lookup c = some (specOutlierDecision (qVals cells)) := by
  have hhas : hasCol df c = true := by
    simp only [hasCol]
    simp only [getCells] at hc
    cases hcol : getCol df c with
    | none => simp [hcol] at hc
    | some col => simp
  apply rulesFromStats_lookup _ _ _ st _ hl
  simp [ht, hhas, hc, outlierDecision_eq_spec _ hne]

/-- Witness for claim C1 at a concrete column: values [1,2,3,4,100] give
bounds [-1, 7], a single outlier, share 1/5 not above 0.2, hence
remove-outliers. -/
theorem claim_C1_witness :
    (outlierRules
        [⟨"x", DType.float,
          [some (CVal.num 1), some (CVal.num 2), some (CVal.num 3),
           some (CVal.num 4), some (CVal.num 100)]⟩]
        [("x", ⟨ColType.NUMERIC, 0, some 5⟩)]).lookup "x" =
      some (specOutlierDecision [1, 2, 3, 4, 100]) := by
  have h := claim_C1_outlier_decision
    [⟨"x", DType.float,
      [some (CVal.num 1), some (CVal.num 2), some (CVal.num 3),
       some (CVal.num 4), some (CVal.num 100)]⟩]
    [("x", ⟨ColType.NUMERIC, 0, some 5⟩)] "x" ⟨ColType.NUMERIC, 0, some 5⟩
    [some (CVal.num 1), some (CVal.num 2), some (CVal.num 3),
     some (CVal.num 4), some (CVal.num 100)]
    (by decide) (by decide) (by decide) (by decide)
  simpa [qVals, cellQ] using h

/-! ## Missing value rules (src/eda_core/preprocessing_rules/missing_values.py) -/

/-- Dropping a differently-named column does not change a label lookup. -/
theorem getCol_dropCol_ne (df : DfC) (c c2 : String) (h : c2 ≠ c) :
    getCol (dropCol df c2) c = getCol df c := by
  induction df with
  | nil => rfl
  | cons col rest ih =>
    by_cases hc2 : col.name = c2
    · have hbc : (col.name == c) = false := by
        simp only [beq_eq_false_iff_ne, ne_eq, hc2]
        exact h
      simp [dropCol, getCol, hc2, hbc, ih, h]
    · have hb2 : (col.name == c2) = false := by simpa using hc2
      simp only [dropCol, hb2, Bool.false_eq_true, if_false]
      by_cases hc : col.name = c
      · simp [getCol, hc]
      · have hbc : (col.name == c) = false := by simpa using hc
        simp [getCol, hbc, ih]

/-- Assigning a differently-named column does not change a label lookup. -/
theorem getCol_setCells_ne (df : DfC) (c c2 : String) (dt : DType) (cs : List Cell)
    (h : c2 ≠ c) : getCol (setCells df c2 dt cs) c = getCol df c := by
  induction df with
  | nil => rfl
  | cons col rest ih =>
    by_cases hc2 : col.name = c2
    · have hbc : (col.name == c) = false := by
        simp only [beq_eq_false_iff_ne, ne_eq, hc2]
        exact h
      simp [setCells, getCol, hc2, hbc, ih, h]
    · have hb2 : (col.name == c2) = false := by simpa using hc2
      simp only [setCells, hb2, Bool.false_eq_true, if_false]
      by_cases hc : col.name = c
      · simp [getCol, hc]
      · have hbc : (col.name == c) = false := by simpa using hc
        simp [getCol, hbc, ih]

/-- A zero outlier count forces the no-action decision. -/
theorem outlierDecision_of_count_zero (xs : List ℚ) (h : outlierCount xs = 0) :
    outlierDecision xs = "no-action" := by
  unfold outlierDecision
  rw [h]
  simp

/-- A successful membership test yields the column. -/
theorem getCol_of_hasCol {df : DfC} {c : String} (h : hasCol df c = true) :
    ∃ col, getCol df c = some col := by
  unfold hasCol at h
  cases hc : getCol df c with
  | none => rw [hc] at h; simp at h
  | some col => exact ⟨col, rfl⟩

/-- A successful lookup witnesses membership. -/
theorem mem_of_lookup {β : Type} (l : List (String × β)) (c : String) (v : β)
    (h : l.lookup c = some v) : (c, v) ∈ l := by
  induction l with
  | nil => simp [List.lookup] at h
  | cons p rest ih =>
    obtain ⟨c0, v0⟩ := p
    by_cases hc : c = c0
    · subst hc
      simp [List.lookup] at h
      subst h
      exact List.mem_cons_self _ _
    · have hb : (c == c0) = false := by simpa using hc
      simp [List.lookup, hb] at h
      exact List.mem_cons_of_mem _ (ih h)

/-- A column has a cell exactly when its label lookup succeeds. -/
theorem hasCol_of_getCells {df : DfC} {c : String} {cells : List Cell}
    (h : getCells df c = some cells) : hasCol df c = true := by
  simp only [getCells, hasCol] at *
  cases hcol : getCol df c with
  | none => rw [hcol] at h; simp at h
  | some col => simp

/-- A missing-value action on another column leaves a column's lookup
unchanged. -/
theorem applyMissingStep_preserves (df df2 : DfC) (c c2 a : String) (hne : c2 ≠ c)
    (h : applyMissingStep df c2 a = Except.ok df2) : getCol df2 c = getCol df c := by
  have himp : ∀ (fv : List Cell → Option CVal) (e : Bool),
      imputeCol df c2 fv e = Except.ok df2 → getCol df2 c = getCol df c := by
    intro fv e himp
    unfold imputeCol at himp
    split at himp
    · exact absurd himp (by simp)
    · rename_i col hcol
      split at himp
      · split at himp
        · exact absurd himp (by simp)
        · simp at himp
          subst himp
          rfl
      · rename_i v hfv
        simp at himp
        subst himp
        exact getCol_setCells_ne df c c2 col.dtype (fillCells col.cells v) hne
  unfold applyMissingStep at h
  split_ifs at h with h1 h2 h3 h4 h5 h6
  · simp at h; subst h; rfl
  · simp at h; rw [← h]; exact getCol_dropCol_ne df c c2 hne
  · exact himp _ _ h
  · exact himp _ _ h
  · exact himp _ _ h
  · exact himp _ _ h
  · simp at h; subst h; rfl

/-- Preservation through the whole action list: a column whose only
listed action is no-action comes out of the loop untouched. -/
theorem applyMissingList_preserves (c : String) (steps : List (String × String)) :
    ∀ (df df2 : DfC), (∀ p ∈ steps, p.1 = c → p.2 = "no-action") →
      applyMissingList df steps = Except.ok df2 → getCol df2 c = getCol df c := by
  induction steps with
  | nil =>
    intro df df2 _ h
    simp [applyMissingList] at h
    subst h; rfl
  | cons p rest ih =>
    intro df df2 hall h
    obtain ⟨c2, a⟩ := p
    simp only [applyMissingList] at h
    cases hstep : applyMissingStep df c2 a with
    | error e => rw [hstep] at h; simp at h
    | ok dfm =>
      rw [hstep] at h
      have h1 : getCol dfm c = getCol df c := by
        by_cases hc2 : c2 = c
        · subst hc2
          have hna : a = "no-action" := hall (c2, a) (List.mem_cons_self _ _) rfl
          subst hna
          simp [applyMissingStep] at hstep
          subst hstep; rfl
        · exact applyMissingStep_preserves df dfm c c2 a hc2 hstep
      rw [← h1]
      exact ih dfm df2 (fun q hq hqc => hall q (List.mem_cons_of_mem _ hq) hqc) h

/-- An entry of a rule module's output comes from some stats entry for the
same column. -/
theorem mem_rulesFromStats {f : String → ColumnSchema → Option String} {stats : Stats}
    {p : String × String} (h : p ∈ rulesFromStats f stats) :
    ∃ st, (p.1, st) ∈ stats ∧ f p.1 st = some p.2 := by
  simp only [rulesFromStats, List.mem_filterMap] at h
  obtain ⟨q, hq, hfq⟩ := h
  cases hf : f q.1 q.2 with
  | none => rw [hf] at hfq; simp at hfq
  | some d =>
    rw [hf] at hfq
    simp at hfq
    refine ⟨q.2, ?_, ?_⟩
    · rw [← hfq]; exact hq
    · rw [← hfq]; simpa using hf

/-- With distinct stats keys, a lookup result is the unique value attached
to the key. -/
theorem lookup_unique_of_nodup {β : Type} (l : List (String × β)) (c : String) (v w : β)
    (hn : (l.map Prod.fst).Nodup) (hl : l.lookup c = some v) (hm : (c, w) ∈ l) : w = v := by
  induction l with
  | nil => simp at hm
  | cons p rest ih =>
    obtain ⟨c0, v0⟩ := p
    simp only [List.map, List.nodup_cons] at hn
    by_cases hc : c = c0
    · subst hc
      simp [List.lookup] at hl
      subst hl
      rcases List.mem_cons.mp hm with h | h
      · exact (Prod.mk.injEq _ _ _ _ ▸ h).2
      · exact absurd (List.mem_map.mpr ⟨(c, w), h, rfl⟩) hn.1
    · have hb : (c == c0) = false := by simpa using hc
      simp [List.lookup, hb] at hl
      rcases List.mem_cons.mp hm with h | h
      · exact absurd (Prod.mk.injEq _ _ _ _ ▸ h).1 hc
      · exact ih hn.2 hl h

/-- Claim C2: a column recorded with zero missing percentage gets the
missing-value decision no-action, and handle_missing_values returns its
values unchanged. -/
theorem claim_C2_missing_zero_no_action (df : DfC) (stats : Stats) (c : String)
    (st : ColumnSchema) (hnodup : (stats.map Prod.fst).Nodup)
    (hl : stats.lookup c = some st) (hmp : st.missing_pct = 0)
    (hc : hasCol df c = true) :
    (missingValueRules df stats).lookup c = some "no-action" ∧
    ∀ df2, handleMissingValues df stats = Except.ok df2 → getCells df2 c = getCells df c := by
  constructor
  · apply rulesFromStats_lookup _ _ _ st _ hl
    simp [hc, missingDecision, hmp]
  · intro df2 h
    have hall : ∀ p ∈ missingValueRules df stats, p.1 = c → p.2 = "no-action" := by
      intro p hp hpc
      obtain ⟨st2, hmem, hf⟩ := mem_rulesFromStats hp
      rw [hpc] at hmem hf
      have hst2 : st2 = st := lookup_unique_of_nodup stats c st st2 hnodup hl hmem
      subst hst2
      rw [hc] at hf
      simp [missingDecision, hmp] at hf
      exact hf.symm
    have := applyMissingList_preserves c (missingValueRules df stats) df df2 hall h
    simp [getCells, this]

/-- Witness for claim C2: a two-column frame where the second column is
mean-imputed while the zero-missing column "a" stays untouched. -/
theorem claim_C2_witness :
    (missingValueRules
        [⟨"a", DType.float, [some (CVal.num 1), some (CVal.num 2)]⟩,
         ⟨"b", DType.float, [some (CVal.num 4), none]⟩]
        [("a", ⟨ColType.NUMERIC, 0, some 2⟩), ("b", ⟨ColType.NUMERIC, 50, some 1⟩)]).lookup "a" =
      some "no-action" ∧
    ∀ df2,
      handleMissingValues
          [⟨"a", DType.float, [some (CVal.num 1), some (CVal.num 2)]⟩,
           ⟨"b", DType.float, [some (CVal.num 4), none]⟩]
          [("a", ⟨ColType.NUMERIC, 0, some 2⟩), ("b", ⟨ColType.NUMERIC, 50, some 1⟩)] =
        Except.ok df2 →
      getCells df2 "a" =
        getCells
          [⟨"a", DType.float, [some (CVal.num 1), some (CVal.num 2)]⟩,
           ⟨"b", DType.float, [some (CVal.num 4), none]⟩] "a" :=
  claim_C2_missing_zero_no_action _ _ "a" ⟨ColType.NUMERIC, 0, some 2⟩
    (by decide) (by decide) (by decide) (by decide)

/-- Claim C4 as stated is false: a NUMERIC column recorded with
missing_pct 30 whose cells are all missing gets the decision impute-mean,
not no-action, because the NaN skewness of the empty series fails the
`skewness > 1` test and selects the mean branch. -/
theorem claim_C4_counterexample :
    (missingValueRules [⟨"x", DType.float, [none]⟩]
        [("x", ⟨ColType.NUMERIC, 30, none⟩)]).lookup "x" = some "impute-mean" ∧
    "impute-mean" ≠ "no-action" := by
  decide

/-- Claim C4 amended: for a numeric column with 0 < missing_pct ≤ 50 that
is empty after removing missing values, the missing-value decision is
impute-mean (the skewness of the empty series is NaN, the `> 1` test
fails, and the mean branch is chosen; the subsequent fillna with a NaN
mean leaves the data unchanged). -/
theorem claim_C4_amended (df : DfC) (stats : Stats) (c : String) (st : ColumnSchema)
    (cells : List Cell)
    (hl : stats.lookup c = some st) (ht : st.type = ColType.NUMERIC)
    (h0 : 0 < st.missing_pct) (h50 : st.missing_pct ≤ 50)
    (hc : getCells df c = some cells) (hempty : qVals cells = []) :
    (missingValueRules df stats).lookup c = some "impute-mean" := by
  have hhas := hasCol_of_getCells hc
  apply rulesFromStats_lookup _ _ _ st _ hl
  have hm0 : ¬ st.missing_pct = 0 := ne_of_gt h0
  have hm50 : ¬ st.missing_pct > 50 := not_lt.mpr h50
  have hskew : pandasSkewGT1 ([] : List ℚ) = false := by decide
  simp [hhas, missingDecision, hm0, hm50, ht, hc, hempty, hskew]

/-- Witness for the amended claim C4 at a concrete empty numeric
column. -/
theorem claim_C4_amended_witness :
    (missingValueRules [⟨"y", DType.float, [none, none]⟩]
        [("y", ⟨ColType.NUMERIC, 40, none⟩)]).lookup "y" = some "impute-mean" :=
  claim_C4_amended _ _ "y" ⟨ColType.NUMERIC, 40, none⟩ [none, none]
    (by decide) (by decide) (by norm_num) (by norm_num) (by decide) (by decide)

/-! ## Transformation rules (src/eda_core/preprocessing_rules/transformations.py) -/

/-- Claim C3 as stated is false: on the integer column named "age" with
values 0, 1, 2, the count-like, age-like and percentage-like predicates
hold simultaneously, so the five raw semantic classifiers are not
mutually exclusive. -/
theorem claim_C3_counterexample :
    ¬ atMostOneSemantic "age" { vals := [0, 1, 2], dtype := DType.int } := by
  unfold atMostOneSemantic
  have h : (semanticPredHolds "age" { vals := [0, 1, 2], dtype := DType.int }).count true = 3 := by
    with_unfolding_all rfl
  rw [h]
  omega

/-- Claim C3 amended: the raw predicates may overlap; exclusivity holds
for the assigned labels because transformation_rules consults the
classifiers in the fixed priority order id, count, age, percentage,
money, and only the first match determines the column's label. -/
theorem claim_C3_amended (name : String) (s : NSeries) :
    (is_id_like s = true → numericDecision name s = "drop (identifier-like)") ∧
    (is_id_like s = false → is_count_like s = true →
      numericDecision name s = "no-transform (count-like)") ∧
    (is_id_like s = false → is_count_like s = false → is_age_like name s = true →
      numericDecision name s = "no-transform (age-like)") ∧
    (is_id_like s = false → is_count_like s = false → is_age_like name s = false →
      is_percentage_like s = true →
      numericDecision name s = "no-transform (percentage/ratio)") ∧
    (is_id_like s = false → is_count_like s = false → is_age_like name s = false →
      is_percentage_like s = false → is_money_like name = true →
      numericDecision name s =
        if scipyAbsSkewGT1 s.vals && s.vals.all (fun x => decide (0 < x)) then
          "log-transform"
        else "standard-scaling") := by
  refine ⟨?_, ?_, ?_, ?_, ?_⟩
  · intro h1
    simp [numericDecision, h1]
  · intro h1 h2
    simp [numericDecision, h1, h2]
  · intro h1 h2 h3
    simp [numericDecision, h1, h2, h3]
  · intro h1 h2 h3 h4
    simp [numericDecision, h1, h2, h3, h4]
  · intro h1 h2 h3 h4 h5
    simp [numericDecision, h1, h2, h3, h4, h5]

/-- Witness for the amended claim C3: on the overlapping column of the
counterexample, the priority order assigns exactly the count-like
label. -/
theorem claim_C3_amended_witness :
    numericDecision "age" { vals := [0, 1, 2], dtype := DType.int } =
      "no-transform (count-like)" :=
  (claim_C3_amended "age" { vals := [0, 1, 2], dtype := DType.int }).2.1
    (by with_unfolding_all rfl) (by with_unfolding_all rfl)

/-- Claim C7 as stated is false: the single-column dataset holding the
already standard-scaled values -11/9, 0, 11/9 has zero recorded missing
percentage, no missing cells, no IQR outliers and no categorical column,
yet re-running the rules engine yields the transformation decision
min-max-scaling, which is neither no-action nor a no-transform label. -/
theorem claim_C7_counterexample :
    (([("x", ⟨ColType.NUMERIC, 0, some 3⟩)] : Stats).all
        (fun p => p.2.missing_pct == 0 && !(p.2.type == ColType.CATEGORICAL))) = true ∧
    (([some (CVal.num (-11 / 9)), some (CVal.num 0), some (CVal.num (11 / 9))] :
        List Cell).all (fun cell => !cell.isNone)) = true ∧
    outlierCount
      (qVals [some (CVal.num (-11 / 9)), some (CVal.num 0), some (CVal.num (11 / 9))]) = 0 ∧
    (runPreprocessingRules
        [⟨"x", DType.float,
          [some (CVal.num (-11 / 9)), some (CVal.num 0), some (CVal.num (11 / 9))]⟩]
        [("x", ⟨ColType.NUMERIC, 0, some 3⟩)]).transformations =
      [("x", "min-max-scaling")] ∧
    isNoActionLike "min-max-scaling" = false := by
  refine ⟨?_, ?_, ?_, ?_, ?_⟩ <;> with_unfolding_all rfl

/-- Claim C7 amended: on an already-processed dataset (zero recorded
missing percentage everywhere, no IQR outliers in any numeric column, no
categorical column left), re-running the rules engine yields only
no-action decisions in the missing-value and outlier families and an
empty encoding family; the transformation family is exempt, since it can
still emit scaling decisions such as min-max-scaling. -/
theorem claim_C7_amended (df : DfC) (stats : Stats)
    (hmiss : ∀ p ∈ stats, (p : String × ColumnSchema).2.missing_pct = 0)
    (hcat : ∀ p ∈ stats, (p : String × ColumnSchema).2.type ≠ ColType.CATEGORICAL)
    (hout : ∀ p ∈ stats, ∀ cells, getCells df (p : String × ColumnSchema).1 = some cells →
      outlierCount (qVals cells) = 0) :
    (∀ q ∈ (runPreprocessingRules df stats).missing_values,
      (q : String × String).2 = "no-action") ∧
    (∀ q ∈ (runPreprocessingRules df stats).outliers,
      (q : String × String).2 = "no-action") ∧
    (runPreprocessingRules df stats).encodings = [] := by
  refine ⟨?_, ?_, ?_⟩
  · intro q hq
    simp only [runPreprocessingRules, missingValueRules] at hq
    obtain ⟨st, hmem, hf⟩ := mem_rulesFromStats hq
    have hm0 : st.missing_pct = 0 := hmiss (q.1, st) hmem
    split at hf
    · simp only [Option.some.injEq] at hf
      rw [← hf]
      simp [missingDecision, hm0]
    · simp at hf
  · intro q hq
    simp only [runPreprocessingRules, outlierRules] at hq
    obtain ⟨st, hmem, hf⟩ := mem_rulesFromStats hq
    split at hf
    · split at hf
      · rename_i hty hhas
        obtain ⟨col, hcol⟩ := getCol_of_hasCol hhas
        have hcells : getCells df q.1 = some col.cells := by simp [getCells, hcol]
        have hcnt := hout (q.1, st) hmem col.cells hcells
        simp only [Option.some.injEq] at hf
        rw [← hf]
        simp [getCells, hcol, outlierDecision_of_count_zero _ hcnt]
      · simp at hf
    · simp at hf
  · simp only [runPreprocessingRules, encodingRules, rulesFromStats]
    rw [List.filterMap_eq_nil_iff]
    intro p hp
    have := hcat p hp
    simp [this]

/-- Witness for the amended claim C7 on the counterexample's dataset: the
three exempt families are all no-action or empty there. -/
theorem claim_C7_amended_witness :
    (∀ q ∈ (runPreprocessingRules
        [⟨"x", DType.float,
          [some (CVal.num (-11 / 9)), some (CVal.num 0), some (CVal.num (11 / 9))]⟩]
        [("x", ⟨ColType.NUMERIC, 0, some 3⟩)]).missing_values,
      (q : String × String).2 = "no-action") ∧
    (∀ q ∈ (runPreprocessingRules
        [⟨"x", DType.float,
          [some (CVal.num (-11 / 9)), some (CVal.num 0), some (CVal.num (11 / 9))]⟩]
        [("x", ⟨ColType.NUMERIC, 0, some 3⟩)]).outliers,
      (q : String × String).2 = "no-action") ∧
    (runPreprocessingRules
        [⟨"x", DType.float,
          [some (CVal.num (-11 / 9)), some (CVal.num 0), some (CVal.num (11 / 9))]⟩]
        [("x", ⟨ColType.NUMERIC, 0, some 3⟩)]).encodings = [] :=
  claim_C7_amended _ _
    (by
      intro p hp
      simp only [List.mem_singleton] at hp
      subst hp
      rfl)
    (by
      intro p hp
      simp only [List.mem_singleton] at hp
      subst hp
      decide)
    (by
      intro p hp cells hcells
      simp only [List.mem_singleton] at hp
      subst hp
      have hcells2 : (some [some (CVal.num (-11 / 9)), some (CVal.num 0),
          some (CVal.num (11 / 9))] : Option (List Cell)) = some cells := hcells
      injection hcells2 with hc2
      rw [← hc2]
      with_unfolding_all rfl)

/-! ## Encoding application (src/eda_core/preprocessing_rules/encodings.py,
  encode_and_scale) -/

/-- A label found on the left of a concatenation is found in the
concatenation. -/
theorem getCol_append_left (df1 df2 : DfC) (c : String) (col : DCol)
    (h : getCol df1 c = some col) : getCol (df1 ++ df2) c = some col := by
  induction df1 with
  | nil => simp [getCol] at h
  | cons d rest ih =>
    by_cases hb : (d.name == c) = true
    · simp [getCol, hb] at h ⊢
      exact h
    · have hb2 : (d.name == c) = false := by simpa using hb
      simp [getCol, hb2] at h ⊢
      exact ih h

/-- Assigning a column rewrites its first occurrence in place. -/
theorem getCol_setCells_self (df : DfC) (c : String) (dt : DType) (cs : List Cell)
    (col : DCol) (h : getCol df c = some col) :
    getCol (setCells df c dt cs) c = some { name := col.name, dtype := dt, cells := cs } := by
  induction df with
  | nil => simp [getCol] at h
  | cons d rest ih =>
    by_cases hb : (d.name == c) = true
    · simp [getCol, hb] at h
      subst h
      simp [setCells, getCol, hb]
    · have hb2 : (d.name == c) = false := by simpa using hb
      simp [getCol, hb2] at h
      simp [setCells, getCol, hb2]
      exact ih h

/-- An encoding action on another column leaves a column's entry
unchanged (appended one-hot indicator columns sit to the right of the
original entry, so the first-match label lookup still finds it). -/
theorem applyEncodingStep_preserves (df df2 : DfC) (target : Option String)
    (c c2 s : String) (col : DCol) (hne : c2 ≠ c)
    (hcol : getCol df c = some col)
    (h : applyEncodingStep df target c2 s = Except.ok df2) :
    getCol df2 c = some col := by
  unfold applyEncodingStep at h
  split_ifs at h with h1 h2
  · unfold oneHotApply at h
    split at h
    · exact absurd h (by simp)
    · rename_i col2 hcol2
      simp only [Except.ok.injEq] at h
      subst h
      apply getCol_append_left
      rw [getCol_dropCol_ne df c c2 hne]
      exact hcol
  · split at h
    · exact absurd h (by simp)
    · rename_i t
      by_cases h3 : hasCol df t = true
      · rw [if_pos h3] at h
        split at h
        · simp only [Except.ok.injEq] at h
          subst h
          rw [getCol_setCells_ne df c c2 _ _ hne]
          exact hcol
        · exact absurd h (by simp)
      · rw [if_neg h3] at h
        exact absurd h (by simp)
  · simp only [Except.ok.injEq] at h
    subst h
    exact hcol

/-- Preservation of a column's entry through the whole encoding loop when
its name never appears among the strategies. -/
theorem applyEncodings_preserves (c : String) (col : DCol)
    (steps : List (String × String)) :
    ∀ (df df2 : DfC) (target : Option String),
      (∀ q ∈ steps, (q : String × String).1 ≠ c) →
      getCol df c = some col → applyEncodings df target steps = Except.ok df2 →
      getCol df2 c = some col := by
  induction steps with
  | nil =>
    intro df df2 target _ hcol h
    simp only [applyEncodings, Except.ok.injEq] at h
    subst h
    exact hcol
  | cons p rest ih =>
    intro df df2 target hall hcol h
    obtain ⟨c2, s⟩ := p
    simp only [applyEncodings] at h
    cases hstep : applyEncodingStep df target c2 s with
    | error e => rw [hstep] at h; exact absurd h (by simp)
    | ok dfm =>
      rw [hstep] at h
      have hne : c2 ≠ c := hall (c2, s) (List.mem_cons_self _ _)
      have h1 := applyEncodingStep_preserves df dfm target c c2 s col hne hcol hstep
      exact ih dfm df2 target (fun q hq => hall q (List.mem_cons_of_mem _ hq)) h1 h

/-- With no target supplied, the encoding loop fails as soon as any
listed strategy is target-encode. -/
theorem applyEncodings_error_of_target_none (steps : List (String × String)) :
    ∀ df : DfC, (∃ q ∈ steps, (q : String × String).2 = "target-encode") →
      ∃ e, applyEncodings df none steps = Except.error e := by
  induction steps with
  | nil => intro df h; simp at h
  | cons p rest ih =>
    intro df h
    obtain ⟨c, s⟩ := p
    by_cases hs : s = "target-encode"
    · subst hs
      exact ⟨"PreprocessingError: target column required", by
        simp [applyEncodings, applyEncodingStep]⟩
    · have hrest : ∃ q ∈ rest, (q : String × String).2 = "target-encode" := by
        rcases h with ⟨q, hq, hqt⟩
        rcases List.mem_cons.mp hq with h1 | h1
        · exfalso
          rw [h1] at hqt
          exact hs hqt
        · exact ⟨q, h1, hqt⟩
      simp only [applyEncodings]
      cases hstep : applyEncodingStep df none c s with
      | error e => exact ⟨e, by simp⟩
      | ok dfm =>
        obtain ⟨e, he⟩ := ih dfm hrest
        exact ⟨e, by simp [he]⟩

/-- Scaling listed columns other than `c` leaves the entry of `c`
unchanged. -/
theorem scaleCols_preserves (c : String) (names : List String) :
    ∀ (df df2 : DfC) (col : DCol), c ∉ names → getCol df c = some col →
      scaleCols df names = Except.ok df2 → getCol df2 c = some col := by
  induction names with
  | nil =>
    intro df df2 col _ hcol h
    simp only [scaleCols, Except.ok.injEq] at h
    subst h
    exact hcol
  | cons n rest ih =>
    intro df df2 col hnot hcol h
    simp only [scaleCols] at h
    split at h
    · exact absurd h (by simp)
    · split at h
      · exact absurd h (by simp)
      · rename_i coln hcoln cs hcs
        have hne : n ≠ c := fun he => hnot (he ▸ List.mem_cons_self _ _)
        have hcol2 : getCol (setCells df n DType.float cs) c = some col := by
          rw [getCol_setCells_ne df c n _ _ hne]
          exact hcol
        exact ih _ _ _ (fun hm => hnot (List.mem_cons_of_mem _ hm)) hcol2 h

/-- A successful scaling pass replaces every listed column's values by
the scaler transform of its previous values. -/
theorem scaleCols_spec (c : String) (names : List String) :
    ∀ (df df2 : DfC) (col : DCol), names.Nodup → c ∈ names →
      getCol df c = some col → scaleCols df names = Except.ok df2 →
      ∃ cs, scaleColE col.cells = Except.ok cs ∧
        getCol df2 c = some { name := col.name, dtype := DType.float, cells := cs } := by
  induction names with
  | nil => intro df df2 col _ hmem; simp at hmem
  | cons n rest ih =>
    intro df df2 col hnd hmem hcol h
    simp only [scaleCols] at h
    split at h
    · exact absurd h (by simp)
    · rename_i coln hcoln
      split at h
      · exact absurd h (by simp)
      · rename_i cs hcs
        by_cases hcn : n = c
        · subst hcn
          rw [hcol] at hcoln
          injection hcoln with he
          subst he
          have hnotin : n ∉ rest := (List.nodup_cons.mp hnd).1
          have hset := getCol_setCells_self df n DType.float cs col hcol
          refine ⟨cs, hcs, ?_⟩
          exact scaleCols_preserves n rest _ df2 _ hnotin hset h
        · have hmem2 : c ∈ rest := by
            rcases List.mem_cons.mp hmem with h1 | h1
            · exact absurd h1.symm hcn
            · exact h1
          have hcol2 : getCol (setCells df n DType.float cs) c = some col := by
            rw [getCol_setCells_ne df c n _ _ hcn]
            exact hcol
          exact ih _ _ _ (List.nodup_cons.mp hnd).2 hmem2 hcol2 h

/-- Claim C5 as stated is false: with categorical columns "c"
(cardinality 2, one-hot) and "d" (cardinality 20, target-encode) and the
target name "c_t" absent from the dataframe, encode_and_scale succeeds:
one-hot encoding "c" first creates the indicator column "c_t", which the
target-encoding of "d" then silently uses as its target. -/
theorem claim_C5_counterexample :
    (encodingRules
        [("c", ⟨ColType.CATEGORICAL, 0, some 2⟩),
         ("d", ⟨ColType.CATEGORICAL, 0, some 20⟩)]).lookup "d" = some "target-encode" ∧
    hasCol
      [⟨"c", DType.obj, [some (CVal.str "t"), some (CVal.str "u")]⟩,
       ⟨"d", DType.obj, [some (CVal.str "p"), some (CVal.str "q")]⟩] "c_t" = false ∧
    isOkE
      (encodeAndScale
        [⟨"c", DType.obj, [some (CVal.str "t"), some (CVal.str "u")]⟩,
         ⟨"d", DType.obj, [some (CVal.str "p"), some (CVal.str "q")]⟩]
        [("c", ⟨ColType.CATEGORICAL, 0, some 2⟩),
         ("d", ⟨ColType.CATEGORICAL, 0, some 20⟩)]
        (some "c_t")) = true := by
  refine ⟨?_, ?_, ?_⟩ <;> with_unfolding_all rfl

/-- Claim C5 amended: a categorical column with cardinality in (10, 50]
gets the encoding decision target-encode, and encode_and_scale with no
target column raises a PreprocessingError; with a target name absent from
the dataframe it can nevertheless succeed when an earlier one-hot
encoding introduces an indicator column bearing exactly that name. -/
theorem claim_C5_amended (stats : Stats) (c : String) (st : ColumnSchema) (u : ℕ)
    (hl : stats.lookup c = some st) (ht : st.type = ColType.CATEGORICAL)
    (hu : st.unique = some u) (h10 : 10 < u) (h50 : u ≤ 50) :
    (encodingRules stats).lookup c = some "target-encode" ∧
    ∀ df : DfC, isOkE (encodeAndScale df stats none) = false := by
  have hdec : (encodingRules stats).lookup c = some "target-encode" := by
    apply rulesFromStats_lookup _ _ _ st _ hl
    have hn10 : ¬ u ≤ 10 := Nat.not_le.mpr h10
    simp [ht, hu, hn10, h50]
  refine ⟨hdec, ?_⟩
  intro df
  have hmem : ("target-encode" : String) ∈ (encodingRules stats).map Prod.snd := by
    exact List.mem_map.mpr ⟨(c, "target-encode"), mem_of_lookup _ _ _ hdec, rfl⟩
  obtain ⟨e, he⟩ := applyEncodings_error_of_target_none (encodingRules stats) df
    ⟨(c, "target-encode"), mem_of_lookup _ _ _ hdec, rfl⟩
  unfold encodeAndScale
  rw [he]
  rfl

/-- Witness for the amended claim C5: a single medium-cardinality
categorical column makes the whole call fail when no target is given. -/
theorem claim_C5_amended_witness :
    (encodingRules [("d", ⟨ColType.CATEGORICAL, 0, some 20⟩)]).lookup "d" =
      some "target-encode" ∧
    isOkE
      (encodeAndScale [⟨"d", DType.obj, [some (CVal.str "p"), some (CVal.str "q")]⟩]
        [("d", ⟨ColType.CATEGORICAL, 0, some 20⟩)] none) = false :=
  ⟨(claim_C5_amended [("d", ⟨ColType.CATEGORICAL, 0, some 20⟩)] "d"
      ⟨ColType.CATEGORICAL, 0, some 20⟩ 20 (by rfl) (by rfl) (by rfl)
      (by norm_num) (by norm_num)).1,
   (claim_C5_amended [("d", ⟨ColType.CATEGORICAL, 0, some 20⟩)] "d"
      ⟨ColType.CATEGORICAL, 0, some 20⟩ 20 (by rfl) (by rfl) (by rfl)
      (by norm_num) (by norm_num)).2
     [⟨"d", DType.obj, [some (CVal.str "p"), some (CVal.str "q")]⟩]⟩

/-- Claim C8: a successful encode_and_scale run replaces the values of
every column recorded as NUMERIC in the statistics by the StandardScaler
transform of the values it carried entering the scaling stage —
unconditionally, with no reference to any transformation-rule decision,
so count-like, age-like or percentage-like columns are scaled too. -/
theorem claim_C8_numeric_scaled (df : DfC) (stats : Stats) (target : Option String)
    (c : String) (st : ColumnSchema) (col : DCol) (df2 : DfC)
    (hnodup : (stats.map Prod.fst).Nodup)
    (hl : stats.lookup c = some st) (ht : st.type = ColType.NUMERIC)
    (hcol : getCol df c = some col)
    (h : encodeAndScale df stats target = Except.ok df2) :
    ∃ cs, scaleColE col.cells = Except.ok cs ∧
      getCol df2 c = some { name := col.name, dtype := DType.float, cells := cs } := by
  unfold encodeAndScale at h
  cases henc : applyEncodings df target (encodingRules stats) with
  | error e => rw [henc] at h; exact absurd h (by simp)
  | ok dfe =>
    rw [henc] at h
    have hkeys : ∀ q ∈ encodingRules stats, (q : String × String).1 ≠ c := by
      intro q hq hqc
      obtain ⟨st2, hmem, hf⟩ := mem_rulesFromStats hq
      rw [hqc] at hmem
      have hst2 : st2 = st := lookup_unique_of_nodup stats c st st2 hnodup hl hmem
      subst hst2
      simp [ht] at hf
    have hcole : getCol dfe c = some col :=
      applyEncodings_preserves c col (encodingRules stats) df dfe target hkeys hcol henc
    have hmemstats : (c, st) ∈ stats := mem_of_lookup _ _ _ hl
    have hmemfilter : (c, st) ∈ stats.filter (fun p => p.2.type == ColType.NUMERIC) :=
      List.mem_filter.mpr ⟨hmemstats, by simp [ht]⟩
    have hhase : hasCol dfe c = true := by simp [hasCol, hcole]
    have hmemnames :
        c ∈ (((stats.filter (fun p => p.2.type == ColType.NUMERIC)).map Prod.fst).filter
          (fun n => hasCol dfe n)) :=
      List.mem_filter.mpr ⟨List.mem_map.mpr ⟨(c, st), hmemfilter, rfl⟩, hhase⟩
    have hndnames :
        (((stats.filter (fun p => p.2.type == ColType.NUMERIC)).map Prod.fst).filter
          (fun n => hasCol dfe n)).Nodup := by
      apply List.Nodup.filter
      have hsub : ((stats.filter (fun p => p.2.type == ColType.NUMERIC)).map
          Prod.fst).Sublist (stats.map Prod.fst) :=
        List.Sublist.map Prod.fst (List.filter_sublist stats)
      exact hnodup.sublist hsub
    exact scaleCols_spec c _ dfe df2 col hndnames hmemnames hcole h

/-- Witness for claim C8: the integer column "n" with values 1, 2, 3 — a
count-like column the transformation rules would leave untouched — is
standard-scaled to (x−2)/sqrt(2/3) while the categorical column is
one-hot encoded. -/
theorem claim_C8_witness :
    ∃ cs,
      scaleColE [some (CVal.num 1), some (CVal.num 2), some (CVal.num 3)] =
        Except.ok cs ∧
      getCol
        [⟨"n", DType.float,
          [some (CVal.sc (-1) (2 / 3)), some (CVal.sc 0 (2 / 3)),
           some (CVal.sc 1 (2 / 3))]⟩,
         ⟨"c_a", DType.float,
          [some (CVal.num 1), some (CVal.num 0), some (CVal.num 1)]⟩,
         ⟨"c_b", DType.float,
          [some (CVal.num 0), some (CVal.num 1), some (CVal.num 0)]⟩] "n" =
        some { name := "n", dtype := DType.float, cells := cs } :=
  claim_C8_numeric_scaled
    [⟨"n", DType.int, [some (CVal.num 1), some (CVal.num 2), some (CVal.num 3)]⟩,
     ⟨"c", DType.obj, [some (CVal.str "a"), some (CVal.str "b"), some (CVal.str "a")]⟩]
    [("n", ⟨ColType.NUMERIC, 0, some 3⟩), ("c", ⟨ColType.CATEGORICAL, 0, some 2⟩)]
    none "n" ⟨ColType.NUMERIC, 0, some 3⟩
    ⟨"n", DType.int, [some (CVal.num 1), some (CVal.num 2), some (CVal.num 3)]⟩
    _ (by decide) (by rfl) (by rfl) (by rfl) (by with_unfolding_all rfl)

/-! ## Outlier handling (src/eda_core/preprocessing_rules/outliers.py,
  handle_outliers) -/

/-- Claim C9: when a numeric column's decision is remove-outliers,
handle_outliers keeps exactly the rows whose value in that column lies
inside the IQR bounds; in particular rows whose value there is missing
are removed too, because pandas NaN comparisons are False. Stated for a
statistics map holding that single column, so that its removal is the
only action applied. -/
theorem claim_C9_remove_drops_nan (df : DfR) (c : String) (st : ColumnSchema) (i : ℕ)
    (ht : st.type = ColType.NUMERIC) (hidx : df.colIdx c = some i)
    (hdec : outlierDecision (qVals (df.colCells c)) = "remove-outliers") :
    (handleOutliers df [(c, st)]).names = df.names ∧
    (handleOutliers df [(c, st)]).rows = df.rows.filter (fun r =>
      match cellQ (r.getD i none) with
      | some q =>
        decide ((iqrBounds (qVals (df.colCells c))).1 ≤ q ∧
          q ≤ (iqrBounds (qVals (df.colCells c))).2)
      | none => false) ∧
    ∀ r ∈ (handleOutliers df [(c, st)]).rows, cellQ (r.getD i none) ≠ none := by
  have hhas : df.hasCol c = true := by simp [DfR.hasCol, hidx]
  have hrules : outlierRulesR df [(c, st)] = [(c, "remove-outliers")] := by
    simp [outlierRulesR, rulesFromStats, ht, hhas, hdec]
  have hstep : handleOutliers df [(c, st)] =
      { df with
        rows := df.rows.filter (fun r =>
          cellGE (r.getD i none) (iqrBounds (qVals (df.colCells c))).1 &&
            cellLE (r.getD i none) (iqrBounds (qVals (df.colCells c))).2) } := by
    unfold handleOutliers
    rw [hrules]
    simp only [List.foldl]
    unfold applyOutlierStep
    rw [hhas, hidx]
    rfl
  have hfcongr : ∀ r : List Cell,
      (cellGE (r.getD i none) (iqrBounds (qVals (df.colCells c))).1 &&
        cellLE (r.getD i none) (iqrBounds (qVals (df.colCells c))).2) =
      (match cellQ (r.getD i none) with
       | some q =>
         decide ((iqrBounds (qVals (df.colCells c))).1 ≤ q ∧
           q ≤ (iqrBounds (qVals (df.colCells c))).2)
       | none => false) := by
    intro r
    unfold cellGE cellLE
    cases cellQ (r.getD i none) with
    | none => rfl
    | some q => exact (Bool.decide_and _ _).symm
  refine ⟨by rw [hstep], ?_, ?_⟩
  · rw [hstep]
    exact List.filter_congr (fun r _ => hfcongr r)
  · intro r hr
    rw [hstep] at hr
    have hp := (List.mem_filter.mp hr).2
    cases hq : cellQ (r.getD i none) with
    | none => rw [cellGE, hq] at hp; simp at hp
    | some q => simp [hq]

/-- Witness for claim C9 on a two-column frame: the rows holding the
outlier value 100 and the missing value in "x" are both removed, the
four in-bounds rows stay. -/
theorem claim_C9_witness :
    (handleOutliers
        { names := ["x", "y"]
          rows := [[some (CVal.num 1), some (CVal.num 10)],
                   [some (CVal.num 2), some (CVal.num 20)],
                   [some (CVal.num 3), some (CVal.num 30)],
                   [some (CVal.num 4), some (CVal.num 40)],
                   [some (CVal.num 100), some (CVal.num 50)],
                   [none, some (CVal.num 60)]] }
        [("x", ⟨ColType.NUMERIC, 0, some 5⟩)]).rows =
      [[some (CVal.num 1), some (CVal.num 10)],
       [some (CVal.num 2), some (CVal.num 20)],
       [some (CVal.num 3), some (CVal.num 30)],
       [some (CVal.num 4), some (CVal.num 40)]] := by
  have h := claim_C9_remove_drops_nan
    { names := ["x", "y"]
      rows := [[some (CVal.num 1), some (CVal.num 10)],
               [some (CVal.num 2), some (CVal.num 20)],
               [some (CVal.num 3), some (CVal.num 30)],
               [some (CVal.num 4), some (CVal.num 40)],
               [some (CVal.num 100), some (CVal.num 50)],
               [none, some (CVal.num 60)]] }
    "x" ⟨ColType.NUMERIC, 0, some 5⟩ 0 (by rfl) (by with_unfolding_all rfl)
    (by with_unfolding_all rfl)
  rw [h.2.1]
  with_unfolding_all rfl

/-! ## Visualization rules (src/eda_core/visualization_rules/vis_rules.py) -/

/-- Claim C10: a feature key without the pair separator that is not a
dataframe column — as the multivariate plan keys numeric_correlation,
clustered_correlation and pairplot are — makes the chart renderer return
None for every chart type, and its entry in the path mapping
generate_plots returns is the empty list. -/
theorem claim_C10_multivariate_keys_skipped (df : DfC) (stats : Stats) (feature : String)
    (hvs : containsSub feature "_vs_" = false)
    (habs : hasCol df feature = false) :
    (∀ chart, renderChart df stats feature chart = Except.ok none) ∧
    ∀ (rules : VisDict) (charts : List ChartEntry),
      rules.lookup feature = some charts →
      (generatePlots df rules stats).lookup feature = some [] := by
  have hrc : ∀ chart, renderChart df stats feature chart = Except.ok none := by
    intro chart
    unfold renderChart
    rw [hvs, habs]
    simp
  refine ⟨hrc, ?_⟩
  intro rules charts
  induction rules with
  | nil =>
    intro hl
    simp [List.lookup] at hl
  | cons p rest ih =>
    intro hl
    obtain ⟨k, v⟩ := p
    by_cases hk : feature = k
    · subst hk
      simp [List.lookup] at hl
      have hnil : (v.filterMap (fun e =>
          match renderChart df stats feature e.chart with
          | Except.ok (some path) => some path
          | _ => none)) = [] := by
        rw [List.filterMap_eq_nil_iff]
        intro e he
        rw [hrc e.chart]
      simp [generatePlots, List.lookup, hnil]
    · have hb : (feature == k) = false := by simpa using hk
      simp only [List.lookup, hb] at hl
      simp only [generatePlots, List.map, List.lookup, hb]
      simpa [generatePlots] using ih hl

/-- Witness for claim C10: the multivariate key numeric_correlation is
skipped by the renderer and mapped to an empty path list. -/
theorem claim_C10_witness :
    renderChart [⟨"a", DType.float, [some (CVal.num 1)]⟩]
        [("a", ⟨ColType.NUMERIC, 0, some 1⟩)] "numeric_correlation" "heatmap" =
      Except.ok none ∧
    (generatePlots [⟨"a", DType.float, [some (CVal.num 1)]⟩]
        [("numeric_correlation", [⟨"heatmap", VisualizationLevel.BASIC⟩])]
        [("a", ⟨ColType.NUMERIC, 0, some 1⟩)]).lookup "numeric_correlation" =
      some [] :=
  ⟨(claim_C10_multivariate_keys_skipped [⟨"a", DType.float, [some (CVal.num 1)]⟩]
      [("a", ⟨ColType.NUMERIC, 0, some 1⟩)] "numeric_correlation"
      (by with_unfolding_all rfl) (by rfl)).1 "heatmap",
   (claim_C10_multivariate_keys_skipped [⟨"a", DType.float, [some (CVal.num 1)]⟩]
      [("a", ⟨ColType.NUMERIC, 0, some 1⟩)] "numeric_correlation"
      (by with_unfolding_all rfl) (by rfl)).2
     [("numeric_correlation", [⟨"heatmap", VisualizationLevel.BASIC⟩])]
     [⟨"heatmap", VisualizationLevel.BASIC⟩] (by rfl)⟩

/-- A dict assignment at a fresh key appends the pair. -/
theorem dictSet_fresh (d : VisDict) (k : String) (v : List ChartEntry)
    (h : ∀ p ∈ d, (p : String × List ChartEntry).1 ≠ k) :
    dictSet d k v = d ++ [(k, v)] := by
  unfold dictSet
  have hany : d.any (fun p => p.1 == k) = false := by
    rw [List.any_eq_false]
    intro p hp
    simp [h p hp]
  rw [hany]
  simp

/-- Assigning a list of pairwise-fresh keys appends them in order. -/
theorem dictSets_append (ps : List (String × List ChartEntry)) :
    ∀ d : VisDict, (ps.map Prod.fst).Nodup →
      (∀ p ∈ d, (p : String × List ChartEntry).1 ∉ ps.map Prod.fst) →
      dictSets d ps = d ++ ps := by
  induction ps with
  | nil => intro d _ _; simp [dictSets]
  | cons q rest ih =>
    intro d hnd hdis
    obtain ⟨k, v⟩ := q
    simp only [List.map, List.nodup_cons] at hnd
    simp only [dictSets]
    rw [dictSet_fresh d k v (fun p hp he => hdis p hp (by simp [he]))]
    rw [ih (d ++ [(k, v)]) hnd.2 ?_]
    · simp
    · intro p hp
      rcases List.mem_append.mp hp with h1 | h1
      · intro hmem
        exact hdis p h1 (by simp [hmem])
      · simp at h1
        rw [h1]
        exact hnd.1

/-- With no target, the univariate pass covers every stats column. -/
theorem univariateEntries_none (df : DfC) (stats : Stats) :
    univariateEntries df stats none =
      stats.map (fun p => (p.1, univariateCharts df p.1 p.2)) := by
  induction stats with
  | nil => rfl
  | cons p rest ih =>
    have hcond : (some p.1 == (none : Option String)) = false := rfl
    simp only [univariateEntries, List.filterMap_cons, hcond, Bool.false_eq_true,
      if_false, List.map]
    simp only [univariateEntries] at ih
    rw [ih]

/-- The cross pass emits one entry per categorical-numeric pair. -/
theorem crossNumEntries_length (cs ns : List String) :
    (crossNumEntries cs ns).length = cs.length * ns.length := by
  induction cs with
  | nil => simp [crossNumEntries]
  | cons c rest ih => simp [crossNumEntries, ih, Nat.succ_mul, Nat.add_comm]

/-- Filtering a duplicate-free list by membership in one of its sublists
recovers exactly that sublist's length. -/
theorem filter_mem_of_nodup (l : List String) :
    ∀ sub : List String, l.Nodup → sub.Sublist l →
      (l.filter (fun k => decide (k ∈ sub))).length = sub.length := by
  induction l with
  | nil =>
    intro sub _ hsl
    rw [List.sublist_nil.mp hsl]
    rfl
  | cons x l ih =>
    intro sub hnd hsl
    cases hsl with
    | cons _ hsl2 =>
      have hx : x ∉ sub := fun hmem => (List.nodup_cons.mp hnd).1 (hsl2.subset hmem)
      rw [List.filter_cons]
      simp only [hx, decide_False, Bool.false_eq_true, if_false]
      exact ih sub (List.nodup_cons.mp hnd).2 hsl2
    | cons₂ _ =>
      rename_i sub2 hsl2
      have hx : x ∉ l := (List.nodup_cons.mp hnd).1
      rw [List.filter_cons]
      have hmemx : x ∈ x :: sub2 := List.mem_cons_self _ _
      simp only [hmemx, decide_True, if_true]
      have hcongr : l.filter (fun k => decide (k ∈ x :: sub2)) =
          l.filter (fun k => decide (k ∈ sub2)) := by
        apply List.filter_congr
        intro k hk
        have hkx : k ≠ x := fun he => hx (he ▸ hk)
        simp [List.mem_cons, hkx]
      rw [hcongr]
      simp [ih sub2 (List.nodup_cons.mp hnd).2 hsl2]

/-- The enumerated categorical pairs of a duplicate-free column list have
no self-pairs. -/
theorem catPairs_ne (l : List String) (hnd : l.Nodup) :
    ∀ p ∈ catPairs l, (p : String × String).1 ≠ p.2 := by
  induction l with
  | nil => intro p hp; simp [catPairs] at hp
  | cons c rest ih =>
    intro p hp
    simp only [catPairs, List.mem_append] at hp
    rcases hp with h | h
    · obtain ⟨c2, hc2, he⟩ := List.mem_map.mp h
      rw [← he]
      intro hcc
      simp only at hcc
      exact (List.nodup_cons.mp hnd).1 (by rw [hcc]; exact hc2)
    · exact ih (List.nodup_cons.mp hnd).2 p h

/-- Claim C6 amended: for a dataset with exactly three numeric and two
categorical columns and no target, whose generated feature keys are
pairwise distinct (no column name collides with another generated key or
with the reserved multivariate keys), the visualization plan holds
exactly one numeric_correlation entry, one clustered_correlation entry,
one categorical-categorical cross entry and six categorical-numeric
cross entries — all unique unordered pairs, no duplicates, no
self-pairs. -/
theorem claim_C6_amended (df : DfC) (stats : Stats)
    (hnum3 : (numColsOf stats).length = 3)
    (hcat2 : (catColsOf stats).length = 2)
    (hlen5 : stats.length = 5)
    (hnd : (stats.map Prod.fst ++ (multivariateEntries df stats).map Prod.fst).Nodup) :
    ((visualizationRules df stats none none).map Prod.fst).count "numeric_correlation" = 1 ∧
    ((visualizationRules df stats none none).map Prod.fst).count "clustered_correlation" = 1 ∧
    (((visualizationRules df stats none none).map Prod.fst).filter
      (fun k => decide (k ∈ (crossCatEntries (catColsOf stats)).map Prod.fst))).length = 1 ∧
    (((visualizationRules df stats none none).map Prod.fst).filter
      (fun k => decide (k ∈ (crossNumEntries (catColsOf stats) (numColsOf stats)).map
        Prod.fst))).length = 6 ∧
    ((crossNumEntries (catColsOf stats) (numColsOf stats)).map Prod.fst).Nodup ∧
    ∀ p ∈ catPairs (catColsOf stats), (p : String × String).1 ≠ p.2 := by
  have hndsplit := List.nodup_append.mp hnd
  have hkeysuni : (univariateEntries df stats none).map Prod.fst = stats.map Prod.fst := by
    rw [univariateEntries_none, List.map_map]
    rfl
  have h1 : dictSets [] (univariateEntries df stats none) =
      univariateEntries df stats none := by
    have h := dictSets_append (univariateEntries df stats none) []
      (by rw [hkeysuni]; exact hndsplit.1)
      (by intro p hp; simp at hp)
    simpa using h
  have h2 : visualizationRules df stats none none =
      univariateEntries df stats none ++ multivariateEntries df stats := by
    unfold visualizationRules
    have hbiv : bivariateEntries stats none none = [] := rfl
    rw [hbiv]
    simp only [dictSets]
    rw [h1]
    apply dictSets_append (multivariateEntries df stats) (univariateEntries df stats none)
      hndsplit.2.1
    intro p hp hpmem
    have hp1 : p.1 ∈ stats.map Prod.fst := by
      rw [← hkeysuni]
      exact List.mem_map.mpr ⟨p, hp, rfl⟩
    exact hndsplit.2.2 hp1 hpmem
  have hkeys : (visualizationRules df stats none none).map Prod.fst =
      stats.map Prod.fst ++ (multivariateEntries df stats).map Prod.fst := by
    rw [h2, List.map_append, hkeysuni]
  have hndkeys : ((visualizationRules df stats none none).map Prod.fst).Nodup := by
    rw [hkeys]
    exact hnd
  have hres : reservedEntries df stats =
      [("numeric_correlation", [⟨"heatmap", VisualizationLevel.BASIC⟩]),
       ("clustered_correlation", [⟨"cluster_heatmap", VisualizationLevel.ADVANCED⟩])] ++
      (if nRows df < 1000 then [("pairplot", [⟨"pairplot", VisualizationLevel.ADVANCED⟩])]
       else []) := by
    unfold reservedEntries
    rw [hnum3]
    rw [if_pos (by norm_num)]
  have hmv : (multivariateEntries df stats).map Prod.fst =
      (reservedEntries df stats).map Prod.fst ++
        (crossNumEntries (catColsOf stats) (numColsOf stats)).map Prod.fst ++
        (crossCatEntries (catColsOf stats)).map Prod.fst := by
    unfold multivariateEntries
    rw [List.map_append, List.map_append]
  have hmemnc : "numeric_correlation" ∈
      (visualizationRules df stats none none).map Prod.fst := by
    rw [hkeys]
    apply List.mem_append_right
    rw [hmv]
    apply List.mem_append_left
    apply List.mem_append_left
    rw [hres]
    simp
  have hmemcc : "clustered_correlation" ∈
      (visualizationRules df stats none none).map Prod.fst := by
    rw [hkeys]
    apply List.mem_append_right
    rw [hmv]
    apply List.mem_append_left
    apply List.mem_append_left
    rw [hres]
    simp
  have hslmv : ((multivariateEntries df stats).map Prod.fst).Sublist
      ((visualizationRules df stats none none).map Prod.fst) := by
    rw [hkeys]
    exact List.sublist_append_right _ _
  have hslnum : ((crossNumEntries (catColsOf stats) (numColsOf stats)).map
      Prod.fst).Sublist ((visualizationRules df stats none none).map Prod.fst) := by
    apply List.Sublist.trans ?_ hslmv
    rw [hmv]
    exact List.Sublist.trans (List.sublist_append_right _ _) (List.sublist_append_left _ _)
  have hslcat : ((crossCatEntries (catColsOf stats)).map Prod.fst).Sublist
      ((visualizationRules df stats none none).map Prod.fst) := by
    apply List.Sublist.trans ?_ hslmv
    rw [hmv]
    exact List.sublist_append_right _ _
  have hlennum : ((crossNumEntries (catColsOf stats) (numColsOf stats)).map
      Prod.fst).length = 6 := by
    rw [List.length_map, crossNumEntries_length, hnum3, hcat2]
  obtain ⟨a, b, hab⟩ := List.length_eq_two.mp hcat2
  have hlencat : ((crossCatEntries (catColsOf stats)).map Prod.fst).length = 1 := by
    rw [hab]
    rfl
  refine ⟨List.count_eq_one_of_mem hndkeys hmemnc,
    List.count_eq_one_of_mem hndkeys hmemcc, ?_, ?_, ?_, ?_⟩
  · rw [filter_mem_of_nodup _ _ hndkeys hslcat]
    exact hlencat
  · rw [filter_mem_of_nodup _ _ hndkeys hslnum]
    exact hlennum
  · exact List.Nodup.sublist hslnum hndkeys
  · apply catPairs_ne
    have hsl : (catColsOf stats).Sublist (stats.map Prod.fst) :=
      List.Sublist.map Prod.fst (List.filter_sublist stats)
    exact List.Nodup.sublist hsl hndsplit.1

/-- Claim C6 as stated is false: a conforming dataset (three numeric, two
categorical columns, no target) whose column names collide through the
"_vs_" key construction — numeric columns b_vs_x, x, y and categorical
columns a, a_vs_b — generates the cross key a_vs_b_vs_x twice (from the
pair (a, b_vs_x) and from the pair (a_vs_b, x)); the dict keeps a single
entry for it, so only five categorical-numeric cross entries remain
instead of the claimed six. -/
theorem claim_C6_counterexample :
    (numColsOf [("b_vs_x", ⟨ColType.NUMERIC, 0, some 2⟩),
      ("x", ⟨ColType.NUMERIC, 0, some 2⟩), ("y", ⟨ColType.NUMERIC, 0, some 2⟩),
      ("a", ⟨ColType.CATEGORICAL, 0, some 2⟩),
      ("a_vs_b", ⟨ColType.CATEGORICAL, 0, some 2⟩)]).length = 3 ∧
    (catColsOf [("b_vs_x", ⟨ColType.NUMERIC, 0, some 2⟩),
      ("x", ⟨ColType.NUMERIC, 0, some 2⟩), ("y", ⟨ColType.NUMERIC, 0, some 2⟩),
      ("a", ⟨ColType.CATEGORICAL, 0, some 2⟩),
      ("a_vs_b", ⟨ColType.CATEGORICAL, 0, some 2⟩)]).length = 2 ∧
    (((visualizationRules
        [⟨"b_vs_x", DType.float, [some (CVal.num 0)]⟩,
         ⟨"x", DType.float, [some (CVal.num 0)]⟩,
         ⟨"y", DType.float, [some (CVal.num 0)]⟩,
         ⟨"a", DType.obj, [some (CVal.str "a")]⟩,
         ⟨"a_vs_b", DType.obj, [some (CVal.str "b")]⟩]
        [("b_vs_x", ⟨ColType.NUMERIC, 0, some 2⟩),
         ("x", ⟨ColType.NUMERIC, 0, some 2⟩), ("y", ⟨ColType.NUMERIC, 0, some 2⟩),
         ("a", ⟨ColType.CATEGORICAL, 0, some 2⟩),
         ("a_vs_b", ⟨ColType.CATEGORICAL, 0, some 2⟩)]
        none none).map Prod.fst).filter
      (fun k => decide (k ∈ (crossNumEntries
        (catColsOf [("b_vs_x", ⟨ColType.NUMERIC, 0, some 2⟩),
          ("x", ⟨ColType.NUMERIC, 0, some 2⟩), ("y", ⟨ColType.NUMERIC, 0, some 2⟩),
          ("a", ⟨ColType.CATEGORICAL, 0, some 2⟩),
          ("a_vs_b", ⟨ColType.CATEGORICAL, 0, some 2⟩)])
        (numColsOf [("b_vs_x", ⟨ColType.NUMERIC, 0, some 2⟩),
          ("x", ⟨ColType.NUMERIC, 0, some 2⟩), ("y", ⟨ColType.NUMERIC, 0, some 2⟩),
          ("a", ⟨ColType.CATEGORICAL, 0, some 2⟩),
          ("a_vs_b", ⟨ColType.CATEGORICAL, 0, some 2⟩)])).map Prod.fst))).length = 5 := by
  refine ⟨?_, ?_, ?_⟩ <;> with_unfolding_all rfl

/-- Witness for the amended claim C6 on a clean five-column dataset: one
row, numeric columns n1, n2, n3, categorical columns c1, c2. -/
theorem claim_C6_amended_witness :
    ((visualizationRules
        [⟨"n1", DType.float, [some (CVal.num 0)]⟩,
         ⟨"n2", DType.float, [some (CVal.num 0)]⟩,
         ⟨"n3", DType.float, [some (CVal.num 0)]⟩,
         ⟨"c1", DType.obj, [some (CVal.str "a")]⟩,
         ⟨"c2", DType.obj, [some (CVal.str "b")]⟩]
        [("n1", ⟨ColType.NUMERIC, 0, some 2⟩), ("n2", ⟨ColType.NUMERIC, 0, some 2⟩),
         ("n3", ⟨ColType.NUMERIC, 0, some 2⟩), ("c1", ⟨ColType.CATEGORICAL, 0, some 2⟩),
         ("c2", ⟨ColType.CATEGORICAL, 0, some 2⟩)]
        none none).map Prod.fst).count "numeric_correlation" = 1 ∧
    ((visualizationRules
        [⟨"n1", DType.float, [some (CVal.num 0)]⟩,
         ⟨"n2", DType.float, [some (CVal.num 0)]⟩,
         ⟨"n3", DType.float, [some (CVal.num 0)]⟩,
         ⟨"c1", DType.obj, [some (CVal.str "a")]⟩,
         ⟨"c2", DType.obj, [some (CVal.str "b")]⟩]
        [("n1", ⟨ColType.NUMERIC, 0, some 2⟩), ("n2", ⟨ColType.NUMERIC, 0, some 2⟩),
         ("n3", ⟨ColType.NUMERIC, 0, some 2⟩), ("c1", ⟨ColType.CATEGORICAL, 0, some 2⟩),
         ("c2", ⟨ColType.CATEGORICAL, 0, some 2⟩)]
        none none).map Prod.fst).count "clustered_correlation" = 1 ∧
    (((visualizationRules
        [⟨"n1", DType.float, [some (CVal.num 0)]⟩,
         ⟨"n2", DType.float, [some (CVal.num 0)]⟩,
         ⟨"n3", DType.float, [some (CVal.num 0)]⟩,
         ⟨"c1", DType.obj, [some (CVal.str "a")]⟩,
         ⟨"c2", DType.obj, [some (CVal.str "b")]⟩]
        [("n1", ⟨ColType.NUMERIC, 0, some 2⟩), ("n2", ⟨ColType.NUMERIC, 0, some 2⟩),
         ("n3", ⟨ColType.NUMERIC, 0, some 2⟩), ("c1", ⟨ColType.CATEGORICAL, 0, some 2⟩),
         ("c2", ⟨ColType.CATEGORICAL, 0, some 2⟩)]
        none none).map Prod.fst).filter
      (fun k => decide (k ∈ (crossCatEntries
        (catColsOf [("n1", ⟨ColType.NUMERIC, 0, some 2⟩),
          ("n2", ⟨ColType.NUMERIC, 0, some 2⟩), ("n3", ⟨ColType.NUMERIC, 0, some 2⟩),
          ("c1", ⟨ColType.CATEGORICAL, 0, some 2⟩),
          ("c2", ⟨ColType.CATEGORICAL, 0, some 2⟩)])).map Prod.fst))).length = 1 ∧
    (((visualizationRules
        [⟨"n1", DType.float, [some (CVal.num 0)]⟩,
         ⟨"n2", DType.float, [some (CVal.num 0)]⟩,
         ⟨"n3", DType.float, [some (CVal.num 0)]⟩,
         ⟨"c1", DType.obj, [some (CVal.str "a")]⟩,
         ⟨"c2", DType.obj, [some (CVal.str "b")]⟩]
        [("n1", ⟨ColType.NUMERIC, 0, some 2⟩), ("n2", ⟨ColType.NUMERIC, 0, some 2⟩),
         ("n3", ⟨ColType.NUMERIC, 0, some 2⟩), ("c1", ⟨ColType.CATEGORICAL, 0, some 2⟩),
         ("c2", ⟨ColType.CATEGORICAL, 0, some 2⟩)]
        none none).map Prod.fst).filter
      (fun k => decide (k ∈ (crossNumEntries
        (catColsOf [("n1", ⟨ColType.NUMERIC, 0, some 2⟩),
          ("n2", ⟨ColType.NUMERIC, 0, some 2⟩), ("n3", ⟨ColType.NUMERIC, 0, some 2⟩),
          ("c1", ⟨ColType.CATEGORICAL, 0, some 2⟩),
          ("c2", ⟨ColType.CATEGORICAL, 0, some 2⟩)])
        (numColsOf [("n1", ⟨ColType.NUMERIC, 0, some 2⟩),
          ("n2", ⟨ColType.NUMERIC, 0, some 2⟩), ("n3", ⟨ColType.NUMERIC, 0, some 2⟩),
          ("c1", ⟨ColType.CATEGORICAL, 0, some 2⟩),
          ("c2", ⟨ColType.CATEGORICAL, 0, some 2⟩)])).map Prod.fst))).length = 6 ∧
    ((crossNumEntries
      (catColsOf [("n1", ⟨ColType.NUMERIC, 0, some 2⟩),
        ("n2", ⟨ColType.NUMERIC, 0, some 2⟩), ("n3", ⟨ColType.NUMERIC, 0, some 2⟩),
        ("c1", ⟨ColType.CATEGORICAL, 0, some 2⟩),
        ("c2", ⟨ColType.CATEGORICAL, 0, some 2⟩)])
      (numColsOf [("n1", ⟨ColType.NUMERIC, 0, some 2⟩),
        ("n2", ⟨ColType.NUMERIC, 0, some 2⟩), ("n3", ⟨ColType.NUMERIC, 0, some 2⟩),
        ("c1", ⟨ColType.CATEGORICAL, 0, some 2⟩),
        ("c2", ⟨ColType.CATEGORICAL, 0, some 2⟩)])).map Prod.fst).Nodup ∧
    ∀ p ∈ catPairs (catColsOf [("n1", ⟨ColType.NUMERIC, 0, some 2⟩),
      ("n2", ⟨ColType.NUMERIC, 0, some 2⟩), ("n3", ⟨ColType.NUMERIC, 0, some 2⟩),
      ("c1", ⟨ColType.CATEGORICAL, 0, some 2⟩),
      ("c2", ⟨ColType.CATEGORICAL, 0, some 2⟩)]),
      (p : String × String).1 ≠ p.2 :=
  claim_C6_amended
    [⟨"n1", DType.float, [some (CVal.num 0)]⟩,
     ⟨"n2", DType.float, [some (CVal.num 0)]⟩,
     ⟨"n3", DType.float, [some (CVal.num 0)]⟩,
     ⟨"c1", DType.obj, [some (CVal.str "a")]⟩,
     ⟨"c2", DType.obj, [some (CVal.str "b")]⟩]
    [("n1", ⟨ColType.NUMERIC, 0, some 2⟩), ("n2", ⟨ColType.NUMERIC, 0, some 2⟩),
     ("n3", ⟨ColType.NUMERIC, 0, some 2⟩), ("c1", ⟨ColType.CATEGORICAL, 0, some 2⟩),
     ("c2", ⟨ColType.CATEGORICAL, 0, some 2⟩)]
    (by rfl) (by rfl) (by rfl) (by with_unfolding_all decide)

end AutoEDA
